import Mathlib

/-!
Verification development for the nite immediate-mode terminal UI library.
Shallow embedding of the relevant parts of src/src/nite.cpp, src/src/nite.hpp
and src/include/nite.hpp. size_t values are modelled as Nat, with arithmetic
modulo 2^64 spelled out wherever the source can overflow or underflow.
-/

namespace Nite

/-- 64-bit machine word modulus: size_t arithmetic is modulo W64. -/
def W64 : Nat := 2 ^ 64

/-- size_t subtraction a - b (wraps modulo 2^64; both arguments < W64 in use). -/
def sub64 (a b : Nat) : Nat := (a + (W64 - b % W64)) % W64

/-- size_t addition a + b (wraps modulo 2^64). -/
def add64 (a b : Nat) : Nat := (a + b) % W64

/-- Color (src/src/nite.hpp, struct Color): three 8-bit channels. -/
structure Color where
  r : Nat := 0
  g : Nat := 0
  b : Nat := 0
deriving DecidableEq, Repr

/-- Color::from_hex: hex encoded as 0x00rrggbb. -/
def Color.from_hex (hex : Nat) : Color :=
  { r := (hex >>> 16) &&& 0xFF, g := (hex >>> 8) &&& 0xFF, b := (hex >>> 0) &&& 0xFF }

/-- STYLE_* bit constants from src/src/nite.hpp (the header next to nite.cpp). -/
def STYLE_RESET : Nat := 1 <<< 0

def STYLE_BOLD : Nat := 1 <<< 1

def STYLE_UNDERLINE : Nat := 1 <<< 2

def STYLE_INVERSE : Nat := 1 <<< 3

def STYLE_NO_FG : Nat := 1 <<< 4

def STYLE_NO_BG : Nat := 1 <<< 5

/-- Style (src/src/nite.hpp): bg/fg colors and a uint8 mode bitset. -/
structure Style where
  bg : Color := Color.from_hex 0x000000
  fg : Color := Color.from_hex 0xffffff
  mode : Nat := STYLE_RESET
deriving DecidableEq, Repr

/-- StyledChar (src/src/nite.hpp): wchar_t value (modelled as its code point) plus a style. -/
structure StyledChar where
  value : Nat := 0
  style : Style := {}
deriving DecidableEq, Repr

/-- internal::Cell (src/src/nite.hpp): a screen cell; default value is the space character. -/
structure Cell where
  value : Nat := 32
  style : Style := {}
deriving DecidableEq, Repr

/-- Position (src/src/nite.hpp): size_t col/row. -/
structure Position where
  col : Nat := 0
  row : Nat := 0
deriving DecidableEq, Repr

/-- Position::operator+ (component-wise size_t addition). -/
def Position.add (a b : Position) : Position := ⟨add64 a.col b.col, add64 a.row b.row⟩

/-- Position::operator- (component-wise size_t subtraction, wrapping). -/
def Position.sub (a b : Position) : Position := ⟨sub64 a.col b.col, sub64 a.row b.row⟩

/-- Size (src/src/nite.hpp): size_t width/height. -/
structure Size where
  width : Nat := 0
  height : Nat := 0
deriving DecidableEq, Repr

/-- internal::CellBuffer (src/src/nite.hpp): width x height row-major array of Cell.
The flat index row*width+col is computed in plain Nat: a buffer with w*h >= 2^64
cells cannot be allocated, so this arithmetic never wraps in the source. -/
structure CellBuffer where
  width : Nat
  height : Nat
  cells : List Cell
deriving DecidableEq, Repr

/-- CellBuffer::CellBuffer(Size): value-initialized cells (all default). -/
def CellBuffer.ofSize (size : Size) : CellBuffer :=
  ⟨size.width, size.height, List.replicate (size.width * size.height) {}⟩

/-- CellBuffer::contains. -/
def CellBuffer.contains (b : CellBuffer) (col row : Nat) : Bool :=
  decide (col < b.width) && decide (row < b.height)

/-- CellBuffer::at (read). -/
def CellBuffer.atIdx (b : CellBuffer) (col row : Nat) : Cell :=
  b.cells.getD (row * b.width + col) {}

/-- Writing through CellBuffer::at (cells[row*width+col] = c). -/
def CellBuffer.setAt (b : CellBuffer) (col row : Nat) (c : Cell) : CellBuffer :=
  { b with cells := b.cells.set (row * b.width + col) c }

/-- CellBuffer::size. -/
def CellBuffer.size (b : CellBuffer) : Size := ⟨b.width, b.height⟩

/-- ScrollBar decoration style (the nine styled glyphs used by EndPane). -/
structure ScrollBar where
  home : StyledChar := {}
  v_bar : StyledChar := {}
  v_node : StyledChar := {}
  top : StyledChar := {}
  bottom : StyledChar := {}
  h_bar : StyledChar := {}
  h_node : StyledChar := {}
  left : StyledChar := {}
  right : StyledChar := {}
deriving DecidableEq, Repr

/-- internal::Box hierarchy (nite.cpp 210-440) as a closed tagged union:
NoBox, StaticBox, ScrollBox (with its decoration flags), GridBox
(with its precomputed child StaticBoxes as (pos, size) pairs). -/
inductive Box where
  | noBox : Box
  | staticBox (pos : Position) (size : Size) : Box
  | scrollBox (scroll_home hscroll_bar vscroll_bar : Bool) (scroll_style : ScrollBar)
      (pos pivot : Position) (min_size max_size : Size) : Box
  | gridBox (pos : Position) (size : Size) (num_cols num_rows : Nat)
      (grid : List (Position × Size)) : Box
deriving DecidableEq, Repr

/-- Matches the source's dynamic_cast<internal::NoBox *> test. -/
def Box.isNoBox : Box → Bool
  | .noBox => true
  | _ => false

/-- Box::get_pos for each variant (NoBox returns the default Position). -/
def Box.get_pos : Box → Position
  | .noBox => {}
  | .staticBox pos _ => pos
  | .scrollBox _ _ _ _ pos _ _ _ => pos
  | .gridBox pos _ _ _ _ => pos

/-- Box::get_size for each variant (ScrollBox reports min_size; NoBox the default Size). -/
def Box.get_size : Box → Size
  | .noBox => {}
  | .staticBox _ size => size
  | .scrollBox _ _ _ _ _ _ min_size _ => min_size
  | .gridBox _ size _ _ _ => size

/-- The rectangle test pos.col <= col < pos.col + size.width (and same for rows)
shared by StaticBox/ScrollBox/GridBox::contains; the upper bound wraps in size_t. -/
def rect_contains (pos : Position) (size : Size) (col row : Nat) : Bool :=
  decide (pos.col ≤ col) && decide (col < add64 pos.col size.width) &&
    decide (pos.row ≤ row) && decide (row < add64 pos.row size.height)

/-- Box::contains(col, row) for each variant; NoBox::contains is always false. -/
def Box.contains (b : Box) (col row : Nat) : Bool :=
  match b with
  | .noBox => false
  | .staticBox pos size => rect_contains pos size col row
  | .scrollBox _ _ _ _ pos _ min_size _ => rect_contains pos min_size col row
  | .gridBox pos size _ _ _ => rect_contains pos size col row

/-- Box::transform(col, row): rewrites local coordinates to absolute ones, or fails.
NoBox always fails; StaticBox/GridBox translate by pos; ScrollBox succeeds only
inside the pivot window and rebases by pos - pivot (nite.cpp 376-383). -/
def Box.transform (b : Box) (col row : Nat) : Option (Nat × Nat) :=
  match b with
  | .noBox => none
  | .staticBox pos _ => some (add64 col pos.col, add64 row pos.row)
  | .scrollBox _ _ _ _ pos pivot min_size _ =>
    if pivot.col ≤ col ∧ col < add64 pivot.col min_size.width ∧
        pivot.row ≤ row ∧ row < add64 pivot.row min_size.height then
      some (sub64 (add64 col pos.col) pivot.col, sub64 (add64 row pos.row) pivot.row)
    else
      none
  | .gridBox pos _ _ _ _ => some (add64 col pos.col, add64 row pos.row)

/-- GridBox::get_grid_cell (nite.cpp 405-409): NoBox out of range, else the
precomputed child StaticBox. -/
def Box.get_grid_cell (pos : Position) (size : Size) (num_cols num_rows : Nat)
    (grid : List (Position × Size)) (col row : Nat) : Box :=
  if num_cols ≤ col ∨ num_rows ≤ row then Box.noBox
  else
    let cell := grid.getD (row * num_cols + col) ({}, {})
    Box.staticBox cell.1 cell.2

/-- StateImpl::set_cell (nite.cpp 553-573): transform through the selected box,
clip against the box and the buffer, then write the cell, merging fg/bg
according to the STYLE_NO_FG / STYLE_NO_BG suppression bits. Returns the
success flag and the updated draw buffer. -/
def set_cell (box : Box) (buffer : CellBuffer) (col row : Nat) (value : Nat)
    (style : Style) : Bool × CellBuffer :=
  match box.transform col row with
  | none => (false, buffer)
  | some (c, r) =>
    if !box.contains c r then (false, buffer)
    else if !buffer.contains c r then (false, buffer)
    else
      let old := buffer.atIdx c r
      let fg := if style.mode &&& STYLE_NO_FG = 0 then style.fg else old.style.fg
      let bg := if style.mode &&& STYLE_NO_BG = 0 then style.bg else old.style.bg
      let mode := style.mode &&& ((STYLE_NO_FG ||| STYLE_NO_BG) ^^^ 0xFF)
      (true, buffer.setAt c r { value := value, style := { bg := bg, fg := fg, mode := mode } })

/-- The combined clip test of set_cell: the transformed coordinate exists and is
inside both the selected box and the buffer; set_cell writes exactly when this holds. -/
def in_clip (box : Box) (buffer : CellBuffer) (col row : Nat) : Bool :=
  match box.transform col row with
  | none => false
  | some (c, r) => box.contains c r && buffer.contains c r

/-- FillCells(state, value, pos1, pos2, style) (nite.cpp 728-737): fill the
half-open rectangle spanned by the two corners through set_cell. -/
def FillCells (box : Box) (buffer : CellBuffer) (value : Nat) (pos1 pos2 : Position)
    (style : Style) : CellBuffer :=
  let col_start := min pos1.col pos2.col
  let col_end := max pos1.col pos2.col
  let row_start := min pos1.row pos2.row
  let row_end := max pos1.row pos2.row
  (List.range' row_start (row_end - row_start)).foldl (fun b row =>
    (List.range' col_start (col_end - col_start)).foldl (fun b col =>
      (set_cell box b col row value style).2) b) buffer

/-- static_cast<size_t> of a nonnegative double, modelled over ℚ (negative values
are UB in the source; here they map to 0). -/
def ratFloorNat (q : ℚ) : Nat := ⌊q⌋.toNat

/-- The coordinates DrawLine (nite.cpp 822-839) touches: a vertical run, a
horizontal run, or the lerp-interpolated diagonal (double arithmetic modelled
exactly over ℚ). -/
def draw_line_points (start e : Position) : List Position :=
  if start.col = e.col then
    (List.range' start.row (e.row - start.row)).map (fun row => ⟨start.col, row⟩)
  else if start.row = e.row then
    (List.range' start.col (e.col - start.col)).map (fun col => ⟨col, start.row⟩)
  else
    (List.range' start.col (e.col - start.col)).map (fun col =>
      let t : ℚ := ((col - start.col : Nat) : ℚ) / |(e.col : ℚ) - (start.col : ℚ)|
      ⟨col, ratFloorNat ((start.row : ℚ) + t * ((e.row : ℚ) - (start.row : ℚ)))⟩)

/-- DrawLine: each touched coordinate written through set_cell. -/
def DrawLine (box : Box) (buffer : CellBuffer) (start e : Position) (fill : Nat)
    (style : Style) : CellBuffer :=
  (draw_line_points start e).foldl (fun b p => (set_cell box b p.col p.row fill style).2) buffer

/-!  The frame differ of EndDrawing (nite.cpp 653-705).  -/

/-- One write to the terminal: a whole-screen clear or one positioned cell. -/
inductive ConsoleWrite where
  | clear : ConsoleWrite
  | cell (col row : Nat) (c : Cell) : ConsoleWrite
deriving DecidableEq, Repr

/-- The full-buffer walk (rows outer, cols inner) writing every cell. -/
def full_writes (buf : CellBuffer) : List ConsoleWrite :=
  (List.range buf.height).flatMap (fun row =>
    (List.range buf.width).map (fun col => ConsoleWrite.cell col row (buf.atIdx col row)))

/-- The equal-size diff walk: writes exactly the cells that differ from prev. -/
def diff_writes (prev cur : CellBuffer) : List ConsoleWrite :=
  (List.range cur.height).flatMap (fun row =>
    (List.range cur.width).filterMap (fun col =>
      if cur.atIdx col row ≠ prev.atIdx col row then
        some (ConsoleWrite.cell col row (cur.atIdx col row))
      else none))

/-- EndDrawing's switch on the swapchain count (nite.cpp 653-705); the list head
is the swapchain front (the previously completed frame). Zero buffers: nothing;
one buffer: write every cell; two buffers of equal size: write changed cells;
two buffers of differing size: clear, then write every cell. -/
def end_drawing_writes : List CellBuffer → List ConsoleWrite
  | [] => []
  | [cur] => full_writes cur
  | prev :: cur :: _ =>
    if cur.size = prev.size then diff_writes prev cur
    else ConsoleWrite.clear :: full_writes cur

/-!  Per-frame interaction state and its reset at EndDrawing.  -/

/-- KeyState (nite.cpp 446-449). -/
structure KeyState where
  printable : Bool := false
  down : Bool := false
deriving DecidableEq, Repr

/-- BtnState (nite.cpp 451-454): per-button click and double-click counters. -/
structure BtnState where
  click1_count : Nat := 0
  click2_count : Nat := 0
deriving DecidableEq, Repr

/-- The event-mechanism fields of State::StateImpl (nite.cpp 456-474):
key states, the four per-button counter pairs, the last mouse position and the
accumulated scroll deltas. -/
structure InputState where
  key_states : List (Nat × KeyState) := []
  btn_states : List BtnState := List.replicate 4 {}
  mouse_pos : Position := {}
  mouse_scroll_v : Int := 0
  mouse_scroll_h : Int := 0
deriving DecidableEq, Repr

/-- The per-frame reset at the top of EndDrawing (nite.cpp 646-650): zero both
scroll deltas and assign a default BtnState to every entry of btn_states.
No other field of the state is touched there. -/
def end_drawing_reset (s : InputState) : InputState :=
  { s with
    mouse_scroll_v := 0
    mouse_scroll_h := 0
    btn_states := s.btn_states.map (fun _ => {}) }

/-!  Events (src/include/nite.hpp 1205-1248).  -/

/-- KEY_* modifier bit constants (src/include/nite.hpp 845-849). -/
def KEY_SHIFT : Nat := 1 <<< 0

def KEY_CTRL : Nat := 1 <<< 1

def KEY_ALT : Nat := 1 <<< 2

def KEY_SUPER : Nat := 1 <<< 3

def KEY_META : Nat := 1 <<< 4

/-- KeyEvent: key code and key char are modelled by their numeric enum/byte values. -/
structure KeyEvent where
  key_down : Bool
  key_code : Nat
  key_char : Nat := 0
  modifiers : Nat := 0
deriving DecidableEq, Repr

inductive MouseEventKind where
  | click
  | doubleClick
  | moved
  | scrollDown
  | scrollUp
  | scrollLeft
  | scrollRight
deriving DecidableEq, Repr

inductive MouseButton where
  | none
  | left
  | middle
  | right
deriving DecidableEq, Repr

structure MouseEvent where
  kind : MouseEventKind
  button : MouseButton := .none
  pos : Position
  modifiers : Nat := 0
deriving DecidableEq, Repr

/-- Event variant (std::variant<KeyEvent, MouseEvent, FocusEvent, ResizeEvent, DebugEvent>;
DebugEvent carries a string irrelevant to the claims and is omitted). -/
inductive Event where
  | key (ev : KeyEvent)
  | mouse (ev : MouseEvent)
  | focus (focus_gained : Bool)
  | resize (size : Size)
deriving DecidableEq, Repr

/-!  Scroll controller (nite.cpp 850-962).  -/

/-- ScrollPaneInfo (src/include/nite.hpp 1598-1620). The float scroll_factor is
modelled over ℚ; the on_vscroll/on_hscroll handlers only invoke user callbacks
(they receive the info by reference and are empty by default) and are omitted. -/
structure ScrollPaneInfo where
  pos : Position := {}
  min_size : Size := {}
  max_size : Size := {}
  scroll_bar : ScrollBar := {}
  scroll_factor : ℚ := 1
  show_vscroll_bar : Bool := true
  show_hscroll_bar : Bool := true
  show_scroll_home : Bool := true
deriving DecidableEq, Repr

/-- Truncation toward zero, the behavior of C++'s float-to-int64 conversion in
value *= info.scroll_factor (the float multiply is exact for the small counters
and factors considered here). -/
def ratTrunc (q : ℚ) : Int := if 0 ≤ q then ⌊q⌋ else ⌈q⌉

/-- scroll_vertical (nite.cpp 850-872): scale the scroll count by the factor
(truncating), move the pivot row (wrapping size_t addition upward, explicit
floor at 0 downward), then clamp to max_size.height - min_size.height - 1. -/
def scroll_vertical (pivot : Position) (info : ScrollPaneInfo) (value : Int) : Position :=
  if !info.show_vscroll_bar then pivot
  else
    let value : Int := ratTrunc ((value : ℚ) * info.scroll_factor)
    if value = 0 then pivot
    else
      let row :=
        if 0 < value then add64 pivot.row value.toNat
        else if value.natAbs ≤ pivot.row then pivot.row - value.natAbs
        else 0
      let bound := sub64 info.max_size.height info.min_size.height
      let row := if bound ≤ row then sub64 bound 1 else row
      { pivot with row := row }

/-- scroll_horizontal (nite.cpp 874-896), the mirror of scroll_vertical on columns. -/
def scroll_horizontal (pivot : Position) (info : ScrollPaneInfo) (value : Int) : Position :=
  if !info.show_hscroll_bar then pivot
  else
    let value : Int := ratTrunc ((value : ℚ) * info.scroll_factor)
    if value = 0 then pivot
    else
      let col :=
        if 0 < value then add64 pivot.col value.toNat
        else if value.natAbs ≤ pivot.col then pivot.col - value.natAbs
        else 0
      let bound := sub64 info.max_size.width info.min_size.width
      let col := if bound ≤ col then sub64 bound 1 else col
      { pivot with col := col }

/-- The five one-cell button zones hit-tested by BeginScrollPane (nite.cpp 904-908). -/
def left_scroll_btn (info : ScrollPaneInfo) : Position :=
  (Position.mk 0 (sub64 info.min_size.height 1)).add info.pos

def right_scroll_btn (info : ScrollPaneInfo) : Position :=
  (Position.mk (sub64 info.min_size.width 2) (sub64 info.min_size.height 1)).add info.pos

def top_scroll_btn (info : ScrollPaneInfo) : Position :=
  (Position.mk (sub64 info.min_size.width 1) 0).add info.pos

def bottom_scroll_btn (info : ScrollPaneInfo) : Position :=
  (Position.mk (sub64 info.min_size.width 1) (sub64 info.min_size.height 2)).add info.pos

def home_cell_btn (info : ScrollPaneInfo) : Position :=
  (Position.mk (sub64 info.min_size.width 1) (sub64 info.min_size.height 1)).add info.pos

/-- One iteration of the captured-event loop of BeginScrollPane (nite.cpp 913-951),
accumulating (hscroll_count, vscroll_count, pivot); a left click on the home cell
sets the pivot to the origin during the loop. Non-mouse events are ignored
(HandleEvent falls through to a default no-op handler). -/
def scroll_pane_event (pane_pos : Position) (info : ScrollPaneInfo)
    (acc : Int × Int × Position) (ev : Event) : Int × Int × Position :=
  match ev with
  | .mouse ev =>
    let (h, v, pivot) := acc
    match ev.kind with
    | .click | .doubleClick =>
      if ev.button ≠ .left then (h, v, pivot)
      else
        let rel := ev.pos.sub pane_pos
        let h := if rel = left_scroll_btn info then h - 1 else h
        let h := if rel = right_scroll_btn info then h + 1 else h
        let v := if rel = top_scroll_btn info then v - 1 else v
        let v := if rel = bottom_scroll_btn info then v + 1 else v
        let pivot := if rel = home_cell_btn info then {} else pivot
        (h, v, pivot)
    | .scrollDown =>
      if rect_contains (pane_pos.add info.pos) info.min_size ev.pos.col ev.pos.row then
        (h, v + 1, pivot)
      else acc
    | .scrollUp =>
      if rect_contains (pane_pos.add info.pos) info.min_size ev.pos.col ev.pos.row then
        (h, v - 1, pivot)
      else acc
    | .scrollLeft =>
      if rect_contains (pane_pos.add info.pos) info.min_size ev.pos.col ev.pos.row then
        (h - 1, v, pivot)
      else acc
    | .scrollRight =>
      if rect_contains (pane_pos.add info.pos) info.min_size ev.pos.col ev.pos.row then
        (h + 1, v, pivot)
      else acc
    | .moved => acc
  | _ => acc

/-- The new pivot computed by BeginScrollPane (nite.cpp 913-954): fold the captured
events, then apply scroll_horizontal followed by scroll_vertical. -/
def begin_scroll_pane_pivot (pane_pos : Position) (pivot0 : Position)
    (info : ScrollPaneInfo) (events : List Event) : Position :=
  let acc := events.foldl (scroll_pane_event pane_pos info) (0, 0, pivot0)
  scroll_vertical (scroll_horizontal acc.2.2 info acc.1) info acc.2.1

/-- A whole sequence of frames feeding scroll input through BeginScrollPane:
the pivot persists across frames, one captured-event batch per frame. -/
def scroll_frames (pane_pos : Position) (info : ScrollPaneInfo) (pivot0 : Position)
    (batches : List (List Event)) : Position :=
  batches.foldl (fun piv evs => begin_scroll_pane_pivot pane_pos piv info evs) pivot0

/-!  The pane stack and the Begin* / EndPane operations (nite.cpp 841-1059).  -/

/-- GridPaneInfo (src/include/nite.hpp 1635-1644); the double weights are
modelled over ℚ. -/
structure GridPaneInfo where
  pos : Position := {}
  size : Size := {}
  col_sizes : List ℚ := [100]
  row_sizes : List ℚ := [100]
deriving DecidableEq, Repr

/-- The grid construction loop of BeginGridPane (nite.cpp 974-990): accumulate
column/row progress as fractions of 100 and truncate each cell's offset and size
to size_t (double arithmetic modelled exactly over ℚ). -/
def grid_cells (info : GridPaneInfo) : List (Position × Size) :=
  (info.row_sizes.foldl
    (fun (acc : List (Position × Size) × ℚ) rs =>
      let inner := info.col_sizes.foldl
        (fun (acc2 : List (Position × Size) × ℚ) cs =>
          let s : Size := ⟨ratFloorNat (cs / 100 * info.size.width),
                           ratFloorNat (rs / 100 * info.size.height)⟩
          let p : Position := ⟨ratFloorNat (acc2.2 * info.size.width),
                               ratFloorNat (acc.2 * info.size.height)⟩
          (acc2.1 ++ [(p, s)], acc2.2 + cs / 100))
        (acc.1, 0)
      (inner.1, acc.2 + rs / 100))
    ([], 0)).1

/-- The GridBox constructor (nite.cpp 395-400): each precomputed child is
offset by the grid pane's absolute position. -/
def make_grid_box (pos : Position) (size : Size) (num_cols num_rows : Nat)
    (grid : List (Position × Size)) : Box :=
  Box.gridBox pos size num_cols num_rows (grid.map (fun cell => (pos.add cell.1, cell.2)))

/-- The drawing-time state: the pane stack (list head is the stack top, i.e.
the selected pane) and the back draw buffer of the swapchain. -/
structure DrawState where
  box_stack : List Box
  buffer : CellBuffer
deriving DecidableEq, Repr

/-- get_current_box; the stack is never empty while drawing (asserted in the
source), an empty stack maps to NoBox here. -/
def current_box : List Box → Box
  | [] => Box.noBox
  | b :: _ => b

/-- GetPanePosition (nite.cpp 611-613). -/
def pane_position (st : DrawState) : Position := (current_box st.box_stack).get_pos

/-- SetCell(state, value, position, style) (nite.cpp 712-714). -/
def st_set_cell (st : DrawState) (value : Nat) (pos : Position) (style : Style) : DrawState :=
  { st with buffer := (set_cell (current_box st.box_stack) st.buffer pos.col pos.row value style).2 }

/-- DrawLine at the state level (nite.cpp 822-839). -/
def st_draw_line (st : DrawState) (start e : Position) (fill : Nat) (style : Style) : DrawState :=
  { st with buffer := DrawLine (current_box st.box_stack) st.buffer start e fill style }

/-- BeginPane (nite.cpp 841-848): a NoBox top pushes another NoBox; otherwise a
StaticBox at the current pane's absolute position plus the local offset. -/
def begin_pane (st : DrawState) (top_left : Position) (size : Size) : DrawState :=
  if (current_box st.box_stack).isNoBox then
    { st with box_stack := Box.noBox :: st.box_stack }
  else
    { st with box_stack := Box.staticBox ((pane_position st).add top_left) size :: st.box_stack }

/-- BeginScrollPane (nite.cpp 898-962): a NoBox top pushes another NoBox;
otherwise the captured events update the pivot and a ScrollBox is pushed.
The caller-owned ScrollState pivot is the pivot0 argument; the updated pivot
this call stores back is begin_scroll_pane_pivot of it. -/
def begin_scroll_pane (st : DrawState) (pivot0 : Position) (info : ScrollPaneInfo)
    (events : List Event) : DrawState :=
  if (current_box st.box_stack).isNoBox then
    { st with box_stack := Box.noBox :: st.box_stack }
  else
    let pivot := begin_scroll_pane_pivot (pane_position st) pivot0 info events
    { st with
      box_stack := Box.scrollBox info.show_scroll_home info.show_hscroll_bar
        info.show_vscroll_bar info.scroll_bar ((pane_position st).add info.pos) pivot
        info.min_size info.max_size :: st.box_stack }

/-- BeginGridPane (nite.cpp 964-993): a NoBox top pushes another NoBox;
otherwise a GridBox with the precomputed cells. -/
def begin_grid_pane (st : DrawState) (info : GridPaneInfo) : DrawState :=
  if (current_box st.box_stack).isNoBox then
    { st with box_stack := Box.noBox :: st.box_stack }
  else
    { st with
      box_stack := make_grid_box ((pane_position st).add info.pos) info.size
        info.col_sizes.length info.row_sizes.length (grid_cells info) :: st.box_stack }

/-- BeginGridCell (nite.cpp 995-1004): a NoBox top pushes another NoBox; a
GridBox top pushes the looked-up child (NoBox when out of range); any other
top pushes NoBox. -/
def begin_grid_cell (st : DrawState) (col row : Nat) : DrawState :=
  match current_box st.box_stack with
  | Box.noBox => { st with box_stack := Box.noBox :: st.box_stack }
  | Box.gridBox pos size num_cols num_rows grid =>
    { st with
      box_stack := Box.get_grid_cell pos size num_cols num_rows grid col row :: st.box_stack }
  | _ => { st with box_stack := Box.noBox :: st.box_stack }

/-- BeginNoPane (nite.cpp 1006-1008). -/
def begin_no_pane (st : DrawState) : DrawState :=
  { st with box_stack := Box.noBox :: st.box_stack }

/-- The ScrollBox scrollbar decoration drawing of EndPane (nite.cpp 1012-1057);
all SetCell/DrawLine calls go through the ScrollBox still on top of the stack.
Size subtractions wrap in size_t; double arithmetic is modelled over ℚ
(division by a zero max size, inf in C++, maps to 0). -/
def end_pane_scroll_draw (st : DrawState) (scroll : ScrollBar) (pivot : Position)
    (min_size max_size : Size) (show_home show_h show_v : Bool) : DrawState :=
  let st :=
    if show_home then
      st_set_cell st scroll.home.value
        ((Position.mk (sub64 min_size.width 1) (sub64 min_size.height 1)).add pivot)
        scroll.home.style
    else st
  let st :=
    if show_v ∧ min_size.height < max_size.height then
      let vstart := (Position.mk (sub64 min_size.width 1) 1).add pivot
      let vend := (Position.mk (sub64 min_size.width 1) (sub64 min_size.height 2)).add pivot
      let st := st_draw_line st vstart vend scroll.v_bar.value scroll.v_bar.style
      let st := st_set_cell st scroll.top.value
        ((Position.mk (sub64 min_size.width 1) 0).add pivot) scroll.top.style
      let st := st_set_cell st scroll.bottom.value
        ((Position.mk (sub64 min_size.width 1) (sub64 min_size.height 2)).add pivot)
        scroll.bottom.style
      let track := sub64 vend.row vstart.row
      let row := ratFloorNat ((pivot.row : ℚ) / (max_size.height : ℚ) * (track : ℚ))
      let node_start := (Position.mk (sub64 min_size.width 1) (add64 row 1)).add pivot
      let max_row :=
        ratFloorNat (((sub64 (sub64 max_size.height min_size.height) 1 : Nat) : ℚ)
          / (max_size.height : ℚ) * (track : ℚ))
      let node_height := sub64 track max_row
      st_draw_line st node_start ⟨node_start.col, add64 node_start.row node_height⟩
        scroll.v_node.value scroll.v_node.style
    else st
  let st :=
    if show_h ∧ min_size.width < max_size.width then
      let hstart := (Position.mk 1 (sub64 min_size.height 1)).add pivot
      let hend := (Position.mk (sub64 min_size.width 2) (sub64 min_size.height 1)).add pivot
      let st := st_draw_line st hstart hend scroll.h_bar.value scroll.h_bar.style
      let st := st_set_cell st scroll.left.value
        ((Position.mk 0 (sub64 min_size.height 1)).add pivot) scroll.left.style
      let st := st_set_cell st scroll.right.value
        ((Position.mk (sub64 min_size.width 2) (sub64 min_size.height 1)).add pivot)
        scroll.right.style
      let track := sub64 hend.col hstart.col
      let col := ratFloorNat ((pivot.col : ℚ) / (max_size.width : ℚ) * (track : ℚ))
      let node_start := (Position.mk (add64 col 1) (sub64 min_size.height 1)).add pivot
      let max_col :=
        ratFloorNat (((sub64 (sub64 max_size.width min_size.width) 1 : Nat) : ℚ)
          / (max_size.width : ℚ) * (track : ℚ))
      let node_width := sub64 track max_col
      st_draw_line st node_start ⟨add64 node_start.col node_width, node_start.row⟩
        scroll.h_node.value scroll.h_node.style
    else st
  st

/-- EndPane (nite.cpp 1010-1059): a ScrollBox top first draws its scrollbar
decorations, then one box is popped (the stack is asserted non-empty). -/
def end_pane (st : DrawState) : DrawState :=
  let st :=
    match current_box st.box_stack with
    | Box.scrollBox show_home show_h show_v scroll _ pivot min_size max_size =>
      end_pane_scroll_draw st scroll pivot min_size max_size show_home show_h show_v
    | _ => st
  { st with box_stack := st.box_stack.tail }

/-- One drawing-phase operation of the public API, as issued by an application
between BeginDrawing and EndDrawing. -/
inductive DrawOp where
  | beginPaneOp (top_left : Position) (size : Size)
  | beginScrollPaneOp (pivot0 : Position) (info : ScrollPaneInfo) (events : List Event)
  | beginGridPaneOp (info : GridPaneInfo)
  | beginGridCellOp (col row : Nat)
  | beginNoPaneOp
  | setCellOp (value : Nat) (pos : Position) (style : Style)
  | endPaneOp
deriving Repr

/-- Interpret one operation on the drawing state. -/
def run_op (st : DrawState) : DrawOp → DrawState
  | .beginPaneOp top_left size => begin_pane st top_left size
  | .beginScrollPaneOp pivot0 info events => begin_scroll_pane st pivot0 info events
  | .beginGridPaneOp info => begin_grid_pane st info
  | .beginGridCellOp col row => begin_grid_cell st col row
  | .beginNoPaneOp => begin_no_pane st
  | .setCellOp value pos style => st_set_cell st value pos style
  | .endPaneOp => end_pane st

/-- Interpret a sequence of operations. -/
def run_ops (st : DrawState) (ops : List DrawOp) : DrawState :=
  ops.foldl run_op st

/-- NoClose k ops: the operation sequence never pops below the k+1 panes that
enclose it (each Begin* pushes exactly one box, EndPane pops exactly one, and
set_cell leaves the stack alone). NoClose 0 ops says ops stays strictly inside
the currently selected pane: every EndPane in it matches one of its own Begin*. -/
def NoClose : Nat → List DrawOp → Prop
  | _, [] => True
  | k, op :: rest =>
    match op with
    | .endPaneOp => 0 < k ∧ NoClose (k - 1) rest
    | .setCellOp _ _ _ => NoClose k rest
    | _ => NoClose (k + 1) rest

instance instDecidableNoClose : ∀ k ops, Decidable (NoClose k ops)
  | _, [] => .isTrue trivial
  | k, op :: rest =>
    match op with
    | .endPaneOp =>
      have : Decidable (NoClose (k - 1) rest) := instDecidableNoClose (k - 1) rest
      inferInstanceAs (Decidable (0 < k ∧ NoClose (k - 1) rest))
    | .setCellOp _ _ _ => instDecidableNoClose k rest
    | .beginPaneOp _ _ => instDecidableNoClose (k + 1) rest
    | .beginScrollPaneOp _ _ _ => instDecidableNoClose (k + 1) rest
    | .beginGridPaneOp _ => instDecidableNoClose (k + 1) rest
    | .beginGridCellOp _ _ => instDecidableNoClose (k + 1) rest
    | .beginNoPaneOp => instDecidableNoClose (k + 1) rest

/-!  Text edit engine: TextInputState (src/include/nite.hpp 2104-2258) and the
TextInput key dispatch (nite.cpp 1927-2031).  -/

/-- KeyCode enum ordinals (src/include/nite.hpp 854-969) for the codes the
embedded source uses. -/
def KC_K_A : Nat := 0

def KC_K_0 : Nat := 26

def KC_BANG : Nat := 36

def KC_AT : Nat := 37

def KC_HASH : Nat := 38

def KC_DOLLAR : Nat := 39

def KC_PERCENT : Nat := 40

def KC_CARET : Nat := 41

def KC_AMPERSAND : Nat := 42

def KC_ASTERISK : Nat := 43

def KC_LPAREN : Nat := 44

def KC_RPAREN : Nat := 45

def KC_LBRACE : Nat := 46

def KC_RBRACE : Nat := 47

def KC_LBRACKET : Nat := 48

def KC_RBRACKET : Nat := 49

def KC_TILDE : Nat := 50

def KC_BQUOTE : Nat := 51

def KC_COLON : Nat := 52

def KC_SEMICOLON : Nat := 53

def KC_DQUOTE : Nat := 54

def KC_SQUOTE : Nat := 55

def KC_LESS : Nat := 56

def KC_GREATER : Nat := 57

def KC_HOOK : Nat := 58

def KC_SLASH : Nat := 59

def KC_COMMA : Nat := 60

def KC_PERIOD : Nat := 61

def KC_BACKSLASH : Nat := 62

def KC_PIPE : Nat := 63

def KC_UNDERSCORE : Nat := 64

def KC_MINUS : Nat := 65

def KC_PLUS : Nat := 66

def KC_EQUAL : Nat := 67

def KC_F1 : Nat := 68

def KC_F2 : Nat := 69

def KC_F3 : Nat := 70

def KC_F4 : Nat := 71

def KC_F5 : Nat := 72

def KC_F6 : Nat := 73

def KC_F7 : Nat := 74

def KC_F8 : Nat := 75

def KC_F9 : Nat := 76

def KC_F10 : Nat := 77

def KC_F11 : Nat := 78

def KC_F12 : Nat := 79

def KC_F13 : Nat := 80

def KC_F14 : Nat := 81

def KC_F15 : Nat := 82

def KC_F16 : Nat := 83

def KC_F17 : Nat := 84

def KC_F18 : Nat := 85

def KC_F19 : Nat := 86

def KC_F20 : Nat := 87

def KC_F21 : Nat := 88

def KC_F22 : Nat := 89

def KC_F23 : Nat := 90

def KC_F24 : Nat := 91

def KC_BACKSPACE : Nat := 92

def KC_ENTER : Nat := 93

def KC_LEFT : Nat := 94

def KC_RIGHT : Nat := 95

def KC_UP : Nat := 96

def KC_DOWN : Nat := 97

def KC_HOME : Nat := 98

def KC_END : Nat := 99

def KC_PAGE_UP : Nat := 100

def KC_PAGE_DOWN : Nat := 101

def KC_TAB : Nat := 102

def KC_INSERT : Nat := 103

def KC_DELETE : Nat := 104

def KC_ESCAPE : Nat := 105

def KC_SPACE : Nat := 106

/-- std::string::find_last_of for a one-character set: index of the last
occurrence of c, if any. -/
def find_last_of (l : List Nat) (c : Nat) : Option Nat :=
  match l with
  | [] => none
  | a :: t =>
    match find_last_of t c with
    | some j => some (j + 1)
    | none => if a = c then some 0 else none

/-- std::string::find_first_of for a one-character set: index of the first
occurrence of c, if any. -/
def find_first_of (l : List Nat) (c : Nat) : Option Nat :=
  match l with
  | [] => none
  | a :: t => if a = c then some 0 else (find_first_of t c).map (· + 1)

/-- TextInputState (src/include/nite.hpp 2104-2113): the buffer is the byte
string of the std::string data. -/
structure TextInputState where
  focus : Bool := true
  insert_mode : Bool := false
  data : List Nat := []
  cursor : Nat := 0
  selection_mode : Bool := false
  selection_pivot : Nat := 0
deriving DecidableEq, Repr

namespace TextInputState

/-- move_left (hpp 2141-2146), with the default delta of 1. -/
def move_left (s : TextInputState) (delta : Nat := 1) : TextInputState :=
  if delta < s.cursor then { s with cursor := s.cursor - delta } else { s with cursor := 0 }

/-- move_right (hpp 2148-2153), with the default delta of 1. -/
def move_right (s : TextInputState) (delta : Nat := 1) : TextInputState :=
  if s.data.length ≤ s.cursor + delta then { s with cursor := s.data.length }
  else { s with cursor := s.cursor + delta }

/-- insert_char (hpp 2122-2128): in overwrite (insert_mode) replace one
character at the cursor (std::string::replace; appends when the cursor is at
the end), otherwise insert before the cursor; then move right. -/
def insert_char (s : TextInputState) (c : Nat) : TextInputState :=
  let s :=
    if s.insert_mode then
      { s with data := s.data.take s.cursor ++ [c] ++ s.data.drop (s.cursor + 1) }
    else
      { s with data := s.data.take s.cursor ++ [c] ++ s.data.drop s.cursor }
  s.move_right

/-- on_key_backspace (hpp 2130-2134): erase the character before the cursor
(when there is one), then move left. -/
def on_key_backspace (s : TextInputState) : TextInputState :=
  let s :=
    if 1 ≤ s.cursor ∧ s.cursor ≤ s.data.length then
      { s with data := s.data.take (s.cursor - 1) ++ s.data.drop s.cursor }
    else s
  s.move_left

/-- on_key_delete (hpp 2136-2139): data.size() - 1 is computed in size_t and
wraps to 2^64-1 on an empty buffer, in which case the guarded erase(cursor, 1)
removes nothing. -/
def on_key_delete (s : TextInputState) : TextInputState :=
  if s.cursor ≤ sub64 s.data.length 1 then
    { s with data := s.data.take s.cursor ++ s.data.drop (s.cursor + 1) }
  else s

/-- go_home (hpp 2155-2158). find_last_of returns npos = 2^64-1 when no newline
precedes the cursor; the source's ternary tests cursor == npos (never true for
an in-range cursor) and so always assigns idx + 1, which wraps to 0 exactly in
the not-found case. The wrap is spelled out. -/
def go_home (s : TextInputState) : TextInputState :=
  let idx : Nat :=
    match find_last_of (s.data.take s.cursor) 10 with
    | some j => j
    | none => W64 - 1
  { s with cursor := if s.cursor = W64 - 1 then 0 else (idx + 1) % W64 }

/-- go_end (hpp 2160-2163): first newline at or after the cursor, or the buffer
end when there is none. -/
def go_end (s : TextInputState) : TextInputState :=
  { s with
    cursor :=
      match find_first_of (s.data.drop s.cursor) 10 with
      | none => s.data.length
      | some idx => idx + s.cursor }

/-- toggle_insert_mode (hpp 2165-2167). -/
def toggle_insert_mode (s : TextInputState) : TextInputState :=
  { s with insert_mode := !s.insert_mode }

/-- start_selection (hpp 2169-2174). -/
def start_selection (s : TextInputState) : TextInputState :=
  if s.selection_mode then s
  else { s with selection_mode := true, selection_pivot := s.cursor }

/-- get_selection_range (hpp 2188-2194). -/
def get_selection_range (s : TextInputState) : Nat × Nat :=
  if !s.selection_mode then (0, 0)
  else if s.selection_pivot ≤ s.cursor then (s.selection_pivot, s.cursor)
  else (s.cursor, s.selection_pivot)

/-- erase_selection (hpp 2176-2182). -/
def erase_selection (s : TextInputState) : TextInputState :=
  if !s.selection_mode then s
  else
    let r := s.get_selection_range
    { s with
      data := s.data.take r.1 ++ s.data.drop (r.1 + (r.2 - r.1))
      cursor := r.1
      selection_pivot := r.1 }

/-- end_selection (hpp 2184-2186). -/
def end_selection (s : TextInputState) : TextInputState :=
  { s with selection_mode := false }

/-- set_cursor (hpp 2253-2257): the range check lacks an else, so the final
assignment cursor = index always wins; translated as written. -/
def set_cursor (s : TextInputState) (index : Nat) : TextInputState :=
  { s with cursor := index }

end TextInputState

/-- is_print (nite.cpp 177-179), also standing in for std::isprint in the C
locale: the printable ASCII range. -/
def is_print (c : Nat) : Bool := decide (32 ≤ c) && decide (c ≤ 126)

/-- The KeyEvent dispatch of TextInput (nite.cpp 1929-2030). Key releases are
ignored. handle_enter_as_event routes Enter to the on_enter callback (a user
callback, no state change here) instead of inserting a newline. -/
def text_input_key (handle_enter_as_event : Bool) (s : TextInputState)
    (ev : KeyEvent) : TextInputState :=
  if !ev.key_down then s
  else if ev.key_code = KC_ESCAPE then s.end_selection
  else if ev.key_code = KC_BACKSPACE then
    if ev.modifiers = 0 then
      if s.selection_mode then s.erase_selection.end_selection
      else s.on_key_backspace
    else s
  else if ev.key_code = KC_DELETE then
    if ev.modifiers = 0 then
      if s.selection_mode then s.erase_selection.end_selection
      else s.on_key_delete
    else s
  else if ev.key_code = KC_LEFT then
    let s :=
      if ev.modifiers = 0 then
        if s.selection_mode then
          let selection_start := s.get_selection_range.1
          (s.end_selection).set_cursor selection_start
        else s.move_left
      else s
    if ev.modifiers &&& KEY_SHIFT ≠ 0 then s.start_selection.move_left else s
  else if ev.key_code = KC_RIGHT then
    let s :=
      if ev.modifiers = 0 then
        if s.selection_mode then
          let selection_end := s.get_selection_range.2
          (s.end_selection).set_cursor selection_end
        else s.move_right
      else s
    if ev.modifiers &&& KEY_SHIFT ≠ 0 then s.start_selection.move_right else s
  else if ev.key_code = KC_HOME then
    let s :=
      if ev.modifiers = 0 then
        (if s.selection_mode then s.end_selection else s).go_home
      else s
    if ev.modifiers &&& KEY_SHIFT ≠ 0 then s.start_selection.go_home else s
  else if ev.key_code = KC_END then
    let s :=
      if ev.modifiers = 0 then
        (if s.selection_mode then s.end_selection else s).go_end
      else s
    if ev.modifiers &&& KEY_SHIFT ≠ 0 then s.start_selection.go_end else s
  else if ev.key_code = KC_INSERT then
    if ev.modifiers = 0 then s.toggle_insert_mode else s
  else if ev.key_code = KC_ENTER then
    if handle_enter_as_event then s
    else if ev.modifiers = 0 then
      let s := if s.selection_mode then s.erase_selection.end_selection else s
      s.insert_char 10
    else s
  else
    if (ev.modifiers = 0 ∨ ev.modifiers &&& KEY_SHIFT ≠ 0) ∧ is_print ev.key_char then
      let s := if s.selection_mode then s.erase_selection.end_selection else s
      s.insert_char ev.key_char
    else s

/-- The captured-event loop of TextInput (nite.cpp 1928-2031): non-key events
fall through to the default no-op handler. -/
def text_input_run (handle_enter_as_event : Bool) (s : TextInputState)
    (events : List Event) : TextInputState :=
  events.foldl
    (fun s ev =>
      match ev with
      | .key kev => text_input_key handle_enter_as_event s kev
      | _ => s)
    s

/-!  ProgressBar rendering (nite.cpp 1597-1637).  -/

/-- ProgressBarInfo (src/include/nite.hpp 2047-2065): the double value is
modelled over ℚ; the motion defaults to the eight block glyphs of
DEFAULT_MOTION; the hover/click handlers only invoke user callbacks and are
omitted. -/
structure ProgressBarInfo where
  value : ℚ := 0
  pos : Position := {}
  length : Nat := 0
  motion : List StyledChar :=
    [⟨0x258F, {}⟩, ⟨0x258E, {}⟩, ⟨0x258D, {}⟩, ⟨0x258C, {}⟩,
     ⟨0x258B, {}⟩, ⟨0x258A, {}⟩, ⟨0x2589, {}⟩, ⟨0x2588, {}⟩]
  style : Style := {}
deriving DecidableEq, Repr

/-- The while (req > 0) fill loop of ProgressBar (nite.cpp 1623-1633), emitting
(relative column, glyph) pairs. The loop runs at most req iterations whenever
the motion is nonempty, so req itself serves as fuel; with an empty motion the
source never reaches the loop with req > 0 (req is then always 0). -/
def progress_bar_loop (motion : List StyledChar) : Nat → Nat → Nat → List (Nat × StyledChar)
  | 0, _, _ => []
  | fuel + 1, req, col =>
    if req = 0 then []
    else if motion.length ≤ req then
      (col, motion.getLastD {}) :: progress_bar_loop motion fuel (req - motion.length) (col + 1)
    else [(col, motion.getD (req - 1) {})]

/-- The cell writes ProgressBar issues (nite.cpp 1615-1637): clamp the value to
[0, 1], compute the sub-cell fill amount req (double product truncated to
size_t), run the fill loop, then pad the remaining columns with spaces. Each
write is ((absolute position), styled char), issued through set_cell. -/
def progress_bar_writes (info : ProgressBarInfo) : List (Position × StyledChar) :=
  let value := if info.value < 0 then 0 else info.value
  let value := if 1 < value then 1 else value
  let req := ratFloorNat (value * ((info.length * info.motion.length : Nat) : ℚ))
  let loopw := progress_bar_loop info.motion req req 0
  let col := loopw.length
  loopw.map (fun w => (⟨add64 info.pos.col w.1, info.pos.row⟩, w.2)) ++
    (List.range' col (info.length - col)).map
      (fun c => (⟨add64 info.pos.col c, info.pos.row⟩, ⟨32, info.style⟩))

/-!  Raw input decoder: the Parser class (nite.cpp 3683-4306) and its tables.
Bytes are Nats < 256; the index i is the parser cursor. Failure of a
sub-parser returns none together with the index it stopped at (the caller
parse() rolls the cursor back itself, nite.cpp 4196-4207).  -/

/-- PARSER_TERMINATOR (nite.cpp 3681). -/
def TERMINATOR : Nat := 10

/-- Parser::peek (nite.cpp 4281-4285). -/
def peekAt (t : List Nat) (i : Nat) (k : Nat := 0) : Nat := t.getD (i + k) TERMINATOR

/-- Parser::current (nite.cpp 4275-4279). -/
def currentAt (t : List Nat) (i : Nat) : Nat :=
  if i = 0 then TERMINATOR else t.getD (i - 1) TERMINATOR

/-- Parser::advance (nite.cpp 4287-4291): the read byte and the new index. -/
def advanceAt (t : List Nat) (i : Nat) : Nat × Nat :=
  if t.length ≤ i then (TERMINATOR, i) else (t.getD i TERMINATOR, i + 1)

/-- Parser::match / Parser::expect (nite.cpp 4259-4273): both advance over an
expected byte, differing only in the error type. -/
def matchChar (t : List Nat) (i : Nat) (c : Nat) : Bool × Nat :=
  if peekAt t i = c then (true, i + 1) else (false, i)

/-- Parser::match_any (nite.cpp 4248-4257). -/
def matchAnyOf (t : List Nat) (i : Nat) (cs : List Nat) : Bool × Nat :=
  if peekAt t i ∈ cs then (true, i + 1) else (false, i)

/-- Parser::expect_csi (nite.cpp 4210-4217). -/
def expect_csi (t : List Nat) (i : Nat) : Bool × Nat :=
  if peekAt t i = 27 ∧ peekAt t i 1 = 91 then (true, i + 2) else (false, i)

/-- The digit test of Parser::match_digit. -/
def isDigitByte (c : Nat) : Bool := decide (48 ≤ c) && decide (c ≤ 57)

/-- The collection loop of Parser::match_number (nite.cpp 4230-4231):
while (str.size() <= 4 && match_digit()) str += current() — it collects at
most five leading digit bytes of the remaining input and the cursor advances
past exactly those; the remaining capacity 5 - str.size() is the recursion
argument. -/
def match_number_take (l : List Nat) : Nat → List Nat
  | 0 => []
  | cap + 1 =>
    match l with
    | [] => []
    | c :: rest => if isDigitByte c then c :: match_number_take rest cap else []

/-- std::from_chars on an all-digit string. -/
def digit_value (str : List Nat) : Nat := str.foldl (fun a c => 10 * a + (c - 48)) 0

/-- Parser::match_number (nite.cpp 4227-4239): collect up to five digits and
convert; conversion fails on an empty string or on overflow of the target
integer type (whose maximum is maxVal). -/
def match_number (t : List Nat) (i : Nat) (maxVal : Nat) : Option Nat × Nat :=
  let str := match_number_take (t.drop i) 5
  let i2 := i + str.length
  if str.isEmpty then (none, i2)
  else if maxVal < digit_value str then (none, i2)
  else (some (digit_value str), i2)

/-- The button-number switch of Parser::parse_mouse (nite.cpp 3726-3760). -/
def mouse_kind_button (button_number : Nat) (dragging : Bool) :
    Option (MouseEventKind × MouseButton) :=
  match button_number with
  | 0 => some (if dragging then (.moved, .none) else (.click, .left))
  | 1 => some (if dragging then (.moved, .none) else (.click, .middle))
  | 2 => some (if dragging then (.moved, .none) else (.click, .right))
  | 3 => some (.moved, .none)
  | 4 => some (if dragging then (.moved, .none) else (.scrollUp, .none))
  | 5 => some (if dragging then (.moved, .none) else (.scrollDown, .none))
  | 6 => if dragging then none else some (.scrollLeft, .none)
  | 7 => if dragging then none else some (.scrollRight, .none)
  | _ => none

/-- The 500ms double-click window in clock ticks (high_resolution_clock
nanoseconds; time points are Ints since the epoch time_point()). -/
def DOUBLE_CLICK_NS : Int := 500000000

/-- The modifier-bit decoding of parse_mouse (nite.cpp 3777-3782). -/
def sgr_modifiers (control_byte : Nat) : Nat :=
  (if (control_byte >>> 2) &&& 1 ≠ 0 then KEY_SHIFT else 0) |||
  (if (control_byte >>> 2) &&& 2 ≠ 0 then KEY_ALT else 0) |||
  (if (control_byte >>> 2) &&& 4 ≠ 0 then KEY_CTRL else 0)

/-- The tail of parse_mouse past the grammar (nite.cpp 3708-3790): decode the
control byte into kind/button, demote a press (final byte 'M') to a move,
classify a release click against the 500ms window, and build the event from
the 1-based coordinates. i is the cursor after the final byte. -/
def parse_mouse_decoded (control_byte x_coord y_coord final : Nat) (now prev : Int)
    (i : Nat) : Option MouseEvent × Nat × Int :=
  let button_number := (control_byte &&& 3) ||| ((control_byte &&& 192) >>> 4)
  let dragging := decide (control_byte &&& 32 = 32)
  match mouse_kind_button button_number dragging with
  | none => (none, i, prev)
  | some kb =>
    let kbp :=
      if kb.1 = MouseEventKind.click then
        if final = 77 then (MouseEventKind.moved, MouseButton.none, prev)
        else if now - prev ≤ DOUBLE_CLICK_NS then (MouseEventKind.doubleClick, kb.2, 0)
        else (MouseEventKind.click, kb.2, now)
      else (kb.1, kb.2, prev)
    (some ⟨kbp.1, kbp.2.1, ⟨sub64 x_coord 1, sub64 y_coord 1⟩, sgr_modifiers control_byte⟩,
      i, kbp.2.2)

/-- Parser::parse_mouse (nite.cpp 3690-3791). now is the time point read at
entry; prev is the prev_mcl_tp member, threaded through and returned. A
trailing 'M' (current() == 'M', press) turns a click into a button-less move;
a trailing 'm' (release) classifies the click, against the 500ms window. -/
def parse_mouse (t : List Nat) (i : Nat) (now prev : Int) : Option MouseEvent × Nat × Int :=
  match expect_csi t i with
  | (false, i) => (none, i, prev)
  | (true, i) =>
  match matchChar t i 60 with
  | (false, i) => (none, i, prev)
  | (true, i) =>
  match match_number t i 255 with
  | (none, i) => (none, i, prev)
  | (some control_byte, i) =>
  match matchChar t i 59 with
  | (false, i) => (none, i, prev)
  | (true, i) =>
  match match_number t i (W64 - 1) with
  | (none, i) => (none, i, prev)
  | (some x_coord, i) =>
  match matchChar t i 59 with
  | (false, i) => (none, i, prev)
  | (true, i) =>
  match match_number t i (W64 - 1) with
  | (none, i) => (none, i, prev)
  | (some y_coord, i) =>
  match matchAnyOf t i [77, 109] with
  | (false, i) => (none, i, prev)
  | (true, i) => parse_mouse_decoded control_byte x_coord y_coord (currentAt t i) now prev i

/-- get_key_code (nite.cpp 4344-4461): the closed table from char (byte) to
KeyCode ordinal; bytes at or above 128 are negative chars in the source and
match nothing, exactly as here. -/
def get_key_code (c : Nat) : Option Nat :=
  if c = 27 then some KC_ESCAPE
  else if c = 32 then some KC_SPACE
  else if c = 33 then some KC_BANG
  else if c = 64 then some KC_AT
  else if c = 35 then some KC_HASH
  else if c = 36 then some KC_DOLLAR
  else if c = 37 then some KC_PERCENT
  else if c = 94 then some KC_CARET
  else if c = 38 then some KC_AMPERSAND
  else if c = 42 then some KC_ASTERISK
  else if c = 40 then some KC_LPAREN
  else if c = 41 then some KC_RPAREN
  else if c = 95 then some KC_UNDERSCORE
  else if c = 43 then some KC_PLUS
  else if c = 45 then some KC_MINUS
  else if c = 61 then some KC_EQUAL
  else if c = 123 then some KC_LBRACE
  else if c = 125 then some KC_RBRACE
  else if c = 91 then some KC_LBRACKET
  else if c = 93 then some KC_RBRACKET
  else if c = 124 then some KC_PIPE
  else if c = 92 then some KC_BACKSLASH
  else if c = 58 then some KC_COLON
  else if c = 34 then some KC_DQUOTE
  else if c = 59 then some KC_SEMICOLON
  else if c = 39 then some KC_SQUOTE
  else if c = 60 then some KC_LESS
  else if c = 62 then some KC_GREATER
  else if c = 63 then some KC_HOOK
  else if c = 44 then some KC_COMMA
  else if c = 46 then some KC_PERIOD
  else if c = 47 then some KC_SLASH
  else if c = 96 then some KC_BQUOTE
  else if c = 126 then some KC_TILDE
  else if 97 ≤ c ∧ c ≤ 122 then some (c - 97 + KC_K_A)
  else if 65 ≤ c ∧ c ≤ 90 then some (c - 65 + KC_K_A)
  else if 48 ≤ c ∧ c ≤ 57 then some (c - 48 + KC_K_0)
  else none

/-- The key_val_unsh == 1 functional switch of parse_key_and_focus
(nite.cpp 3868-3899). -/
def functional_key_code_1 (functional : Nat) : Option Nat :=
  if functional = 65 then some KC_UP
  else if functional = 66 then some KC_DOWN
  else if functional = 67 then some KC_RIGHT
  else if functional = 68 then some KC_LEFT
  else if functional = 70 then some KC_END
  else if functional = 72 then some KC_HOME
  else if functional = 80 then some KC_F1
  else if functional = 81 then some KC_F2
  else if functional = 83 then some KC_F4
  else none

/-- The functional == tilde switch (nite.cpp 3900-3994). -/
def tilde_key_code (key_val_unsh : Nat) : Option Nat :=
  if key_val_unsh = 1 then some KC_HOME
  else if key_val_unsh = 2 then some KC_INSERT
  else if key_val_unsh = 3 then some KC_DELETE
  else if key_val_unsh = 5 then some KC_PAGE_UP
  else if key_val_unsh = 6 then some KC_PAGE_DOWN
  else if key_val_unsh = 7 then some KC_HOME
  else if key_val_unsh = 8 then some KC_END
  else if key_val_unsh = 11 then some KC_F1
  else if key_val_unsh = 12 then some KC_F2
  else if key_val_unsh = 13 then some KC_F3
  else if key_val_unsh = 14 then some KC_F4
  else if key_val_unsh = 15 then some KC_F5
  else if key_val_unsh = 17 then some KC_F6
  else if key_val_unsh = 18 then some KC_F7
  else if key_val_unsh = 19 then some KC_F8
  else if key_val_unsh = 20 then some KC_F9
  else if key_val_unsh = 21 then some KC_F10
  else if key_val_unsh = 23 then some KC_F11
  else if key_val_unsh = 24 then some KC_F12
  else if key_val_unsh = 25 then some KC_F13
  else if key_val_unsh = 26 then some KC_F14
  else if key_val_unsh = 28 then some KC_F15
  else if key_val_unsh = 29 then some KC_F16
  else if key_val_unsh = 31 then some KC_F17
  else if key_val_unsh = 32 then some KC_F18
  else if key_val_unsh = 33 then some KC_F19
  else if key_val_unsh = 34 then some KC_F20
  else none

/-- The functional == u special-value switch (nite.cpp 3995-4074), without its
default fallthrough to get_key_code. -/
def u_key_code (key_val_unsh : Nat) : Option Nat :=
  if key_val_unsh = 9 then some KC_TAB
  else if key_val_unsh = 13 then some KC_ENTER
  else if key_val_unsh = 27 then some KC_ESCAPE
  else if key_val_unsh = 127 then some KC_BACKSPACE
  else if key_val_unsh = 57376 then some KC_F13
  else if key_val_unsh = 57377 then some KC_F14
  else if key_val_unsh = 57378 then some KC_F15
  else if key_val_unsh = 57379 then some KC_F16
  else if key_val_unsh = 57380 then some KC_F17
  else if key_val_unsh = 57381 then some KC_F18
  else if key_val_unsh = 57382 then some KC_F19
  else if key_val_unsh = 57383 then some KC_F20
  else if key_val_unsh = 57384 then some KC_F21
  else if key_val_unsh = 57385 then some KC_F22
  else if key_val_unsh = 57386 then some KC_F23
  else if key_val_unsh = 57387 then some KC_F24
  else if key_val_unsh = 57417 then some KC_LEFT
  else if key_val_unsh = 57418 then some KC_RIGHT
  else if key_val_unsh = 57419 then some KC_UP
  else if key_val_unsh = 57420 then some KC_DOWN
  else if key_val_unsh = 57421 then some KC_PAGE_UP
  else if key_val_unsh = 57422 then some KC_PAGE_DOWN
  else if key_val_unsh = 57423 then some KC_HOME
  else if key_val_unsh = 57424 then some KC_END
  else if key_val_unsh = 57425 then some KC_INSERT
  else if key_val_unsh = 57426 then some KC_DELETE
  else none

/-- The key-code/key-char resolution of parse_key_and_focus (nite.cpp
3862-4084): a shifted value takes priority; otherwise key_val_unsh == 1 uses
the functional-letter table, a trailing tilde or u their tables (u falling back
to the char cast), any other functional the char cast. The source leaves
kev.key_char uninitialized on the purely functional paths; it is 0 here. -/
def resolve_extended_key (key_val_unsh : Nat) (key_val_sh : Option Nat)
    (functional : Nat) : Option (Nat × Nat) :=
  match key_val_sh with
  | some sh =>
    match get_key_code (sh % 256) with
    | some kc => some (kc, sh)
    | none => none
  | none =>
    if key_val_unsh = 1 then
      (functional_key_code_1 functional).map (fun kc => (kc, 0))
    else if functional = 126 then
      (tilde_key_code key_val_unsh).map (fun kc => (kc, 0))
    else if functional = 117 then
      match u_key_code key_val_unsh with
      | some kc => some (kc, 0)
      | none =>
        match get_key_code (key_val_unsh % 256) with
        | some kc => some (kc, key_val_unsh % 256)
        | none => none
    else
      match get_key_code (key_val_unsh % 256) with
      | some kc => some (kc, key_val_unsh % 256)
      | none => none

/-- The kitty modifier-field decoding (nite.cpp 4086-4098), applied to the
1-based field after saturated_sub by one. -/
def apply_kitty_modifiers (key_modifiers : Option Nat) : Nat :=
  match key_modifiers with
  | none => 0
  | some val =>
    (if val &&& 1 ≠ 0 then KEY_SHIFT else 0) |||
    (if val &&& 2 ≠ 0 then KEY_ALT else 0) |||
    (if val &&& 4 ≠ 0 then KEY_CTRL else 0) |||
    (if val &&& 8 ≠ 0 then KEY_SUPER else 0) |||
    (if val &&& 32 ≠ 0 then KEY_META else 0)

/-- Parser::parse_key_and_focus (nite.cpp 3798-4115). The source
default-initializes the KeyEvent on the extended path, leaving key_down
indeterminate; it is true here (as in every explicitly built KeyEvent). -/
def parse_key_and_focus (t : List Nat) (i : Nat) : Option Event × Nat :=
  let a := advanceAt t i
  let c := a.1
  let i := a.2
  if c = 0x0d then (some (.key ⟨true, KC_ENTER, currentAt t i, 0⟩), i)
  else if c = 0x7f ∨ c = 0x08 then (some (.key ⟨true, KC_BACKSPACE, currentAt t i, 0⟩), i)
  else if c = 0x09 then (some (.key ⟨true, KC_TAB, currentAt t i, 0⟩), i)
  else if c = 27 then
    match matchChar t i 91 with
    | (false, i) => (none, i)
    | (true, i) =>
    match matchChar t i 79 with
    | (true, i) => (some (.focus false), i)
    | (false, i) =>
    match matchChar t i 73 with
    | (true, i) => (some (.focus true), i)
    | (false, i) =>
    match match_number t i 2147483647 with
    | (none, i) => (none, i)
    | (some key_val_unsh, i) =>
      let r1 := matchChar t i 58
      let sh_i : Option Nat × Nat :=
        if r1.1 then
          let rv := match_number t r1.2 255
          let r2 := matchChar t rv.2 58
          (rv.1, if r2.1 then (match_number t r2.2 (W64 - 1)).2 else r2.2)
        else (none, r1.2)
      let key_val_sh := sh_i.1
      let i := sh_i.2
      let r3 := matchChar t i 59
      let mod_i : Option Nat × Nat :=
        if r3.1 then
          let rv := match_number t r3.2 255
          ((rv.1).map (fun val => val - 1), rv.2)
        else (none, r3.2)
      let key_modifiers := mod_i.1
      let i := mod_i.2
      match matchAnyOf t i [65, 66, 67, 68, 69, 70, 72, 80, 81, 83, 117, 126] with
      | (false, i) => (none, i)
      | (true, i) =>
        let functional := currentAt t i
        match resolve_extended_key key_val_unsh key_val_sh functional with
        | none => (none, i)
        | some kc =>
          (some (.key ⟨true, kc.1, kc.2, apply_kitty_modifiers key_modifiers⟩), i)
  else
    match get_key_code (currentAt t i) with
    | none => (none, i)
    | some key_code => (some (.key ⟨true, key_code, currentAt t i, 0⟩), i)

/-- The ESC-O table of parse_key_legacy (nite.cpp 4125-4140). -/
def legacy_O_key (c : Nat) : Option Nat :=
  if c = 80 then some KC_F1
  else if c = 81 then some KC_F2
  else if c = 82 then some KC_F3
  else if c = 83 then some KC_F4
  else none

/-- The CSI table of parse_key_legacy (nite.cpp 4150-4171). -/
def legacy_bracket_key (c : Nat) : Option Nat :=
  if c = 65 then some KC_UP
  else if c = 66 then some KC_DOWN
  else if c = 67 then some KC_RIGHT
  else if c = 68 then some KC_LEFT
  else if c = 72 then some KC_HOME
  else if c = 70 then some KC_END
  else none

/-- Parser::parse_key_legacy (nite.cpp 4119-4182). -/
def parse_key_legacy (t : List Nat) (i : Nat) : Option Event × Nat :=
  match matchChar t i 27 with
  | (false, i) => (none, i)
  | (true, i) =>
  match matchChar t i 79 with
  | (true, i) =>
    let a := advanceAt t i
    match legacy_O_key a.1 with
    | some kc => (some (.key ⟨true, kc, 0, 0⟩), a.2)
    | none => (none, a.2)
  | (false, i) =>
  match matchChar t i 91 with
  | (true, i) =>
    let a := advanceAt t i
    match legacy_bracket_key a.1 with
    | some kc => (some (.key ⟨true, kc, 0, 0⟩), a.2)
    | none => (none, a.2)
  | (false, i) => (none, i)

/-- Parser::parse (nite.cpp 4184-4208): the whole-text ESC special case, then
the three grammars in order, rolling the cursor back to old_index before each;
total failure leaves the cursor where the legacy grammar stopped. -/
def parse (t : List Nat) (i : Nat) (now prev : Int) : Option Event × Nat × Int :=
  if t = [27] then
    (some (.key ⟨true, KC_ESCAPE, 27, 0⟩), (advanceAt t i).2, prev)
  else
    match parse_mouse t i now prev with
    | (some ev, i2, prev2) => (some (.mouse ev), i2, prev2)
    | (none, _, _) =>
    match parse_key_and_focus t i with
    | (some ev, i2) => (some ev, i2, prev)
    | (none, _) =>
    match parse_key_legacy t i with
    | (some ev, i2) => (some ev, i2, prev)
    | (none, i2) => (none, i2, prev)

/-- Parser::parse_events (nite.cpp 4298-4305), with the while (index < size)
loop unrolled against a fuel bound: some events when the loop finishes within
fuel iterations, none otherwise. times k is the clock value read by the k-th
parse call; prev_mcl_tp starts at the epoch (0) for every Parser instance. -/
def parse_events_fuel (t : List Nat) (times : Nat → Int) :
    Nat → Nat → Nat → Int → Option (List Event)
  | 0, _, i, _ => if t.length ≤ i then some [] else none
  | fuel + 1, k, i, prev =>
    if t.length ≤ i then some []
    else
      let r := parse t i (times k) prev
      match parse_events_fuel t times fuel (k + 1) r.2.1 r.2.2 with
      | none => none
      | some evs =>
        some
          (match r.1 with
          | some ev => ev :: evs
          | none => evs)

/-- Parser(text).parse_events() with fuel enough for any run that consumes at
least one byte per iteration. -/
def parse_events (t : List Nat) (times : Nat → Int) : Option (List Event) :=
  parse_events_fuel t times (t.length + 1) 0 0 0

/-!  Statement-support definitions.  -/

/-- The byte string of an SGR mouse report CSI < cb ; x ; y M|m, with the three
decimal fields given as digit-byte strings. -/
def sgr_mouse_report (dcb dx dy : List Nat) (final : Nat) : List Nat :=
  [27, 91, 60] ++ dcb ++ [59] ++ dx ++ [59] ++ dy ++ [final]

/-- All bytes of l are ASCII digits. -/
def all_digits (l : List Nat) : Prop := ∀ c ∈ l, isDigitByte c = true

instance : DecidablePred all_digits := fun l =>
  inferInstanceAs (Decidable (∀ c ∈ l, isDigitByte c = true))

/-- The key codes the TextInput switch handles specially (nite.cpp 1932-2019);
any other key code falls to the printable-character default branch. -/
def text_input_handled_keys : List Nat :=
  [KC_ESCAPE, KC_BACKSPACE, KC_DELETE, KC_LEFT, KC_RIGHT, KC_HOME, KC_END,
   KC_INSERT, KC_ENTER]

/-- The claim's button map for SGR button numbers 0-2: left, middle, right. -/
def click_button_of (button_number : Nat) : MouseButton :=
  if button_number = 0 then .left else if button_number = 1 then .middle else .right

/-- Modelled from the amended claim C5: one batch with net scroll count moves
the pivot coordinate by the truncation toward zero of count * scroll_factor,
clamped to [0, maxS - minS - 1]. -/
def pivot_move_amended (p minS maxS : Nat) (count : Int) (factor : ℚ) : Nat :=
  let d := ratTrunc ((count : ℚ) * factor)
  if d = 0 then p else min (maxS - minS - 1) (max 0 ((p : Int) + d)).toNat

/-- The SGR release report CSI < 0 ; 5 ; 5 m of a plain left-button release at
1-based terminal coordinate (5, 5): the concrete report the double-click
statements feed to the decoder. -/
def sgr_click_report : List Nat := [27, 91, 60, 48, 59, 53, 59, 53, 109]

/-!  ## Arithmetic helper lemmas  -/

theorem W64_pos : 0 < W64 := by
  unfold W64; positivity

theorem sub64_eq_sub {a b : Nat} (hb : b ≤ a) (ha : a < W64) : sub64 a b = a - b := by
  have hbW : b % W64 = b := Nat.mod_eq_of_lt (lt_of_le_of_lt hb ha)
  unfold sub64
  rw [hbW]
  have h1 : a + (W64 - b) = W64 + (a - b) := by omega
  rw [h1, Nat.add_mod_left]
  exact Nat.mod_eq_of_lt (by omega)

theorem add64_eq_add {a b : Nat} (h : a + b < W64) : add64 a b = a + b :=
  Nat.mod_eq_of_lt h

/-!  ## Shared list helpers  -/

theorem foldl_fixed {α β : Type} {f : β → α → β} {b : β} {l : List α}
    (h : ∀ x ∈ l, f b x = b) : l.foldl f b = b := by
  induction l with
  | nil => rfl
  | cons a t ih =>
    rw [List.foldl_cons, h a (by simp)]
    exact ih (fun x hx => h x (by simp [hx]))

/-!  ## C9: out-of-bounds drawing writes  -/

theorem set_cell_noop {box : Box} {buf : CellBuffer} {col row v : Nat} {st : Style}
    (h : in_clip box buf col row = false) : set_cell box buf col row v st = (false, buf) := by
  unfold in_clip at h
  unfold set_cell
  cases htr : box.transform col row with
  | none => rfl
  | some cr =>
    rw [htr] at h
    simp only [Bool.and_eq_false_iff] at h
    rcases h with h | h <;> simp [h]

/-- C9: for every drawing-primitive write, a coordinate that fails the
buffer-bounds or box-clip test of set_cell silently no-ops: set_cell returns
the buffer unchanged, a subsequent write behaves as if the failed one never
happened, and FillCells/DrawLine calls all of whose coordinates fail the test
leave the buffer unchanged. -/
theorem c9_oob_writes_noop :
    (∀ (box : Box) (buf : CellBuffer) (col row v : Nat) (st : Style),
      in_clip box buf col row = false → (set_cell box buf col row v st).2 = buf) ∧
    (∀ (box : Box) (buf : CellBuffer) (col row v : Nat) (st : Style)
        (col2 row2 v2 : Nat) (st2 : Style),
      in_clip box buf col row = false →
        set_cell box (set_cell box buf col row v st).2 col2 row2 v2 st2 =
          set_cell box buf col2 row2 v2 st2) ∧
    (∀ (box : Box) (buf : CellBuffer) (v : Nat) (p1 p2 : Position) (st : Style),
      (∀ c r, min p1.col p2.col ≤ c → c < max p1.col p2.col →
          min p1.row p2.row ≤ r → r < max p1.row p2.row →
          in_clip box buf c r = false) →
        FillCells box buf v p1 p2 st = buf) ∧
    (∀ (box : Box) (buf : CellBuffer) (s e : Position) (f : Nat) (st : Style),
      (∀ p ∈ draw_line_points s e, in_clip box buf p.col p.row = false) →
        DrawLine box buf s e f st = buf) := by
  refine ⟨?_, ?_, ?_, ?_⟩
  · intro box buf col row v st h
    rw [set_cell_noop h]
  · intro box buf col row v st col2 row2 v2 st2 h
    rw [set_cell_noop h]
  · intro box buf v p1 p2 st h
    unfold FillCells
    apply foldl_fixed
    intro row hrow
    apply foldl_fixed
    intro col hcol
    rw [List.mem_range'] at hrow hcol
    rw [set_cell_noop (h col row (by omega) (by omega) (by omega) (by omega))]
  · intro box buf s e f st h
    unfold DrawLine
    apply foldl_fixed
    intro p hp
    rw [set_cell_noop (h p hp)]

theorem c9_oob_writes_noop_witness :
    (set_cell (Box.staticBox ⟨0, 0⟩ ⟨2, 2⟩) (CellBuffer.ofSize ⟨2, 2⟩) 5 7 65 {}).2 =
        CellBuffer.ofSize ⟨2, 2⟩ ∧
    set_cell (Box.staticBox ⟨0, 0⟩ ⟨2, 2⟩)
        (set_cell (Box.staticBox ⟨0, 0⟩ ⟨2, 2⟩) (CellBuffer.ofSize ⟨2, 2⟩) 5 7 65 {}).2
        1 1 66 {} =
      set_cell (Box.staticBox ⟨0, 0⟩ ⟨2, 2⟩) (CellBuffer.ofSize ⟨2, 2⟩) 1 1 66 {} ∧
    FillCells (Box.staticBox ⟨0, 0⟩ ⟨2, 2⟩) (CellBuffer.ofSize ⟨2, 2⟩) 65 ⟨4, 4⟩ ⟨6, 6⟩ {} =
      CellBuffer.ofSize ⟨2, 2⟩ ∧
    DrawLine (Box.staticBox ⟨0, 0⟩ ⟨2, 2⟩) (CellBuffer.ofSize ⟨2, 2⟩) ⟨5, 0⟩ ⟨5, 3⟩ 66 {} =
      CellBuffer.ofSize ⟨2, 2⟩ := by
  refine ⟨?_, ?_, ?_, ?_⟩
  · exact c9_oob_writes_noop.1 (Box.staticBox ⟨0, 0⟩ ⟨2, 2⟩) (CellBuffer.ofSize ⟨2, 2⟩)
      5 7 65 {} (by decide)
  · exact c9_oob_writes_noop.2.1 (Box.staticBox ⟨0, 0⟩ ⟨2, 2⟩) (CellBuffer.ofSize ⟨2, 2⟩)
      5 7 65 {} 1 1 66 {} (by decide)
  · refine c9_oob_writes_noop.2.2.1 (Box.staticBox ⟨0, 0⟩ ⟨2, 2⟩) (CellBuffer.ofSize ⟨2, 2⟩)
      65 ⟨4, 4⟩ ⟨6, 6⟩ {} ?_
    intro c r h1 h2 h3 h4
    have hc : c = 4 ∨ c = 5 := by simp at h1 h2; omega
    have hr : r = 4 ∨ r = 5 := by simp at h3 h4; omega
    rcases hc with rfl | rfl <;> rcases hr with rfl | rfl <;> decide
  · exact c9_oob_writes_noop.2.2.2 (Box.staticBox ⟨0, 0⟩ ⟨2, 2⟩) (CellBuffer.ofSize ⟨2, 2⟩)
      ⟨5, 0⟩ ⟨5, 3⟩ 66 {} (by decide)

/-!  ## C8: NoBox culling propagation  -/

theorem isNoBox_eq_noBox {b : Box} (h : b.isNoBox = true) : b = Box.noBox := by
  cases b <;> simp [Box.isNoBox] at h ⊢

theorem set_cell_nobox (buf : CellBuffer) (c r v : Nat) (st : Style) :
    set_cell Box.noBox buf c r v st = (false, buf) := rfl

theorem st_set_cell_nobox {st : DrawState} (h : (current_box st.box_stack).isNoBox = true)
    (v : Nat) (p : Position) (sty : Style) : st_set_cell st v p sty = st := by
  unfold st_set_cell
  rw [isNoBox_eq_noBox h, set_cell_nobox]

theorem run_ops_nobox_buffer :
    ∀ (ops : List DrawOp) (k : Nat) (rest : List Box) (buf : CellBuffer),
      NoClose k ops →
      (run_ops ⟨List.replicate (k + 1) Box.noBox ++ rest, buf⟩ ops).buffer = buf := by
  intro ops
  induction ops with
  | nil => intro k rest buf _; rfl
  | cons op t ih =>
    intro k rest buf h
    rw [run_ops, List.foldl_cons]
    cases op with
    | beginPaneOp tl sz =>
      replace h : NoClose (k + 1) t := h
      have hstep : run_op ⟨List.replicate (k + 1) Box.noBox ++ rest, buf⟩ (.beginPaneOp tl sz) =
          ⟨List.replicate (k + 1 + 1) Box.noBox ++ rest, buf⟩ := by
        simp [run_op, begin_pane, List.replicate_succ, current_box, Box.isNoBox]
      rw [hstep]
      exact ih (k + 1) rest buf h
    | beginScrollPaneOp pv info evs =>
      replace h : NoClose (k + 1) t := h
      have hstep : run_op ⟨List.replicate (k + 1) Box.noBox ++ rest, buf⟩
          (.beginScrollPaneOp pv info evs) =
          ⟨List.replicate (k + 1 + 1) Box.noBox ++ rest, buf⟩ := by
        simp [run_op, begin_scroll_pane, List.replicate_succ, current_box, Box.isNoBox]
      rw [hstep]
      exact ih (k + 1) rest buf h
    | beginGridPaneOp info =>
      replace h : NoClose (k + 1) t := h
      have hstep : run_op ⟨List.replicate (k + 1) Box.noBox ++ rest, buf⟩
          (.beginGridPaneOp info) =
          ⟨List.replicate (k + 1 + 1) Box.noBox ++ rest, buf⟩ := by
        simp [run_op, begin_grid_pane, List.replicate_succ, current_box, Box.isNoBox]
      rw [hstep]
      exact ih (k + 1) rest buf h
    | beginGridCellOp c r =>
      replace h : NoClose (k + 1) t := h
      have hstep : run_op ⟨List.replicate (k + 1) Box.noBox ++ rest, buf⟩
          (.beginGridCellOp c r) =
          ⟨List.replicate (k + 1 + 1) Box.noBox ++ rest, buf⟩ := by
        simp [run_op, begin_grid_cell, List.replicate_succ, current_box]
      rw [hstep]
      exact ih (k + 1) rest buf h
    | beginNoPaneOp =>
      replace h : NoClose (k + 1) t := h
      have hstep : run_op ⟨List.replicate (k + 1) Box.noBox ++ rest, buf⟩ .beginNoPaneOp =
          ⟨List.replicate (k + 1 + 1) Box.noBox ++ rest, buf⟩ := by
        simp [run_op, begin_no_pane, List.replicate_succ]
      rw [hstep]
      exact ih (k + 1) rest buf h
    | setCellOp v p sty =>
      replace h : NoClose k t := h
      have hstep : run_op ⟨List.replicate (k + 1) Box.noBox ++ rest, buf⟩ (.setCellOp v p sty) =
          ⟨List.replicate (k + 1) Box.noBox ++ rest, buf⟩ := by
        apply st_set_cell_nobox
        simp [List.replicate_succ, current_box, Box.isNoBox]
      rw [hstep]
      exact ih k rest buf h
    | endPaneOp =>
      replace h : 0 < k ∧ NoClose (k - 1) t := h
      obtain ⟨hk, h⟩ := h
      have hstep : run_op ⟨List.replicate (k + 1) Box.noBox ++ rest, buf⟩ .endPaneOp =
          ⟨List.replicate k Box.noBox ++ rest, buf⟩ := by
        simp [run_op, end_pane, List.replicate_succ, current_box]
      rw [hstep]
      have hk1 : k = (k - 1) + 1 := by omega
      rw [hk1]
      exact ih (k - 1) rest buf h

/-- C8: while the selected pane is a NoBox, each of BeginPane, BeginScrollPane,
BeginGridPane and BeginGridCell pushes another NoBox; set_cell through a NoBox
leaves the whole draw buffer unchanged; and any operation sequence that stays
inside the NoBox pane (NoClose: it never pops past its enclosing panes) leaves
every cell of the draw buffer unchanged, regardless of coordinates and of
NoBox's zero-valued geometry. -/
theorem c8_nobox_set_cell_noop :
    (∀ (st : DrawState) (top_left : Position) (size : Size),
      (current_box st.box_stack).isNoBox = true →
        begin_pane st top_left size = { st with box_stack := Box.noBox :: st.box_stack }) ∧
    (∀ (st : DrawState) (pivot0 : Position) (info : ScrollPaneInfo) (events : List Event),
      (current_box st.box_stack).isNoBox = true →
        begin_scroll_pane st pivot0 info events =
          { st with box_stack := Box.noBox :: st.box_stack }) ∧
    (∀ (st : DrawState) (info : GridPaneInfo),
      (current_box st.box_stack).isNoBox = true →
        begin_grid_pane st info = { st with box_stack := Box.noBox :: st.box_stack }) ∧
    (∀ (st : DrawState) (col row : Nat),
      (current_box st.box_stack).isNoBox = true →
        begin_grid_cell st col row = { st with box_stack := Box.noBox :: st.box_stack }) ∧
    (∀ (st : DrawState) (v : Nat) (p : Position) (sty : Style),
      (current_box st.box_stack).isNoBox = true → st_set_cell st v p sty = st) ∧
    (∀ (ops : List DrawOp) (k : Nat) (rest : List Box) (buf : CellBuffer),
      NoClose k ops →
      (run_ops ⟨List.replicate (k + 1) Box.noBox ++ rest, buf⟩ ops).buffer = buf) := by
  refine ⟨?_, ?_, ?_, ?_, ?_, run_ops_nobox_buffer⟩
  · intro st tl sz h
    unfold begin_pane
    rw [h]
    simp
  · intro st pv info evs h
    unfold begin_scroll_pane
    rw [h]
    simp
  · intro st info h
    unfold begin_grid_pane
    rw [h]
    simp
  · intro st c r h
    unfold begin_grid_cell
    rw [isNoBox_eq_noBox h]
  · intro st v p sty h
    exact st_set_cell_nobox h v p sty

theorem c8_nobox_set_cell_noop_witness :
    begin_pane ⟨[Box.noBox], CellBuffer.ofSize ⟨3, 3⟩⟩ ⟨1, 1⟩ ⟨2, 2⟩ =
      ⟨[Box.noBox, Box.noBox], CellBuffer.ofSize ⟨3, 3⟩⟩ ∧
    begin_grid_cell ⟨[Box.noBox], CellBuffer.ofSize ⟨3, 3⟩⟩ 0 0 =
      ⟨[Box.noBox, Box.noBox], CellBuffer.ofSize ⟨3, 3⟩⟩ ∧
    st_set_cell ⟨[Box.noBox], CellBuffer.ofSize ⟨3, 3⟩⟩ 65 ⟨1, 1⟩ {} =
      ⟨[Box.noBox], CellBuffer.ofSize ⟨3, 3⟩⟩ ∧
    (run_ops ⟨List.replicate 1 Box.noBox ++ [Box.staticBox ⟨0, 0⟩ ⟨3, 3⟩],
        CellBuffer.ofSize ⟨3, 3⟩⟩
      [.beginPaneOp ⟨1, 1⟩ ⟨2, 2⟩, .setCellOp 65 ⟨0, 0⟩ {}, .endPaneOp,
        .setCellOp 66 ⟨1, 1⟩ {}]).buffer = CellBuffer.ofSize ⟨3, 3⟩ := by
  refine ⟨?_, ?_, ?_, ?_⟩
  · exact c8_nobox_set_cell_noop.1 ⟨[Box.noBox], CellBuffer.ofSize ⟨3, 3⟩⟩ ⟨1, 1⟩ ⟨2, 2⟩ rfl
  · exact c8_nobox_set_cell_noop.2.2.2.1 ⟨[Box.noBox], CellBuffer.ofSize ⟨3, 3⟩⟩ 0 0 rfl
  · exact c8_nobox_set_cell_noop.2.2.2.2.1 ⟨[Box.noBox], CellBuffer.ofSize ⟨3, 3⟩⟩
      65 ⟨1, 1⟩ {} rfl
  · exact c8_nobox_set_cell_noop.2.2.2.2.2
      [.beginPaneOp ⟨1, 1⟩ ⟨2, 2⟩, .setCellOp 65 ⟨0, 0⟩ {}, .endPaneOp, .setCellOp 66 ⟨1, 1⟩ {}]
      0 [Box.staticBox ⟨0, 0⟩ ⟨3, 3⟩] (CellBuffer.ofSize ⟨3, 3⟩) (by decide)

/-!  ## C2: the EndDrawing differ  -/

theorem filterMap_none_of {α β : Type} {f : α → Option β} {l : List α}
    (h : ∀ x ∈ l, f x = none) : l.filterMap f = [] := by
  induction l with
  | nil => rfl
  | cons a t ih =>
    rw [List.filterMap_cons, h a (by simp)]
    exact ih fun x hx => h x (by simp [hx])

theorem flatMap_nil_of {α β : Type} {f : α → List β} {l : List α}
    (h : ∀ x ∈ l, f x = []) : l.flatMap f = [] := by
  induction l with
  | nil => rfl
  | cons a t ih =>
    rw [List.flatMap_cons, h a (by simp)]
    exact ih fun x hx => h x (by simp [hx])

theorem range_filterMap_single {β : Type} (f : Nat → Option β) (a : β) (c0 : Nat) :
    ∀ w, c0 < w → f c0 = some a → (∀ c, c < w → c ≠ c0 → f c = none) →
      (List.range w).filterMap f = [a] := by
  intro w
  induction w with
  | zero => intro h; omega
  | succ n ih =>
    intro hc hf hnone
    rw [List.range_succ, List.filterMap_append]
    by_cases hcn : c0 = n
    · subst hcn
      rw [filterMap_none_of, List.nil_append]
      · simp [List.filterMap_cons, hf]
      · intro x hx
        rw [List.mem_range] at hx
        exact hnone x (by omega) (by omega)
    · rw [ih (by omega) hf (fun c h1 h2 => hnone c (by omega) h2)]
      have hn : f n = none := hnone n (by omega) (fun h => hcn h.symm)
      simp [List.filterMap_cons, hn]

theorem range_flatMap_single {β : Type} (g : Nat → List β) (out : List β) (r0 : Nat) :
    ∀ h, r0 < h → g r0 = out → (∀ r, r < h → r ≠ r0 → g r = []) →
      (List.range h).flatMap g = out := by
  intro h
  induction h with
  | zero => intro hr; omega
  | succ n ih =>
    intro hr hg hnil
    rw [List.range_succ, List.flatMap_append]
    by_cases hrn : r0 = n
    · subst hrn
      rw [flatMap_nil_of, List.nil_append]
      · simp [List.flatMap_cons, hg]
      · intro x hx
        rw [List.mem_range] at hx
        exact hnil x (by omega) (by omega)
    · rw [ih (by omega) hg (fun r h1 h2 => hnil r (by omega) h2)]
      have hn : g n = [] := hnil n (by omega) (fun h2 => hrn h2.symm)
      simp [List.flatMap_cons, hn]

theorem diff_writes_self (b : CellBuffer) : diff_writes b b = [] := by
  unfold diff_writes
  apply flatMap_nil_of
  intro row _
  apply filterMap_none_of
  intro col _
  simp

theorem diff_writes_single {prev cur : CellBuffer} {c0 r0 : Nat}
    (hc : c0 < cur.width) (hr : r0 < cur.height)
    (hdiff : ∀ c r, c < cur.width → r < cur.height →
      (cur.atIdx c r ≠ prev.atIdx c r ↔ c = c0 ∧ r = r0)) :
    diff_writes prev cur = [ConsoleWrite.cell c0 r0 (cur.atIdx c0 r0)] := by
  unfold diff_writes
  apply range_flatMap_single _ _ r0 _ hr
  · apply range_filterMap_single _ _ c0 _ hc
    · rw [if_pos]
      exact (hdiff c0 r0 hc hr).2 ⟨rfl, rfl⟩
    · intro c h1 h2
      rw [if_neg]
      intro hne
      exact h2 ((hdiff c r0 h1 hr).1 hne).1
  · intro r h1 h2
    apply filterMap_none_of
    intro col hcol
    rw [List.mem_range] at hcol
    rw [if_neg]
    intro hne
    exact h2 ((hdiff col r hcol h1).1 hne).2

theorem mem_diff_writes {prev cur : CellBuffer} {w : ConsoleWrite} :
    w ∈ diff_writes prev cur ↔ ∃ c r, c < cur.width ∧ r < cur.height ∧
      cur.atIdx c r ≠ prev.atIdx c r ∧ w = ConsoleWrite.cell c r (cur.atIdx c r) := by
  unfold diff_writes
  simp only [List.mem_flatMap, List.mem_filterMap, List.mem_range]
  constructor
  · rintro ⟨r, hr, c, hc, hw⟩
    by_cases hne : cur.atIdx c r ≠ prev.atIdx c r
    · rw [if_pos hne] at hw
      exact ⟨c, r, hc, hr, hne, (Option.some_injective _ hw).symm⟩
    · rw [if_neg hne] at hw
      exact absurd hw (by simp)
  · rintro ⟨c, r, hc, hr, hne, rfl⟩
    exact ⟨r, hr, c, hc, by rw [if_pos hne]⟩

/-- C2: EndDrawing's differ by swapchain count: a single buffer is written in
full (every in-bounds cell appears among the writes); two equal-size buffers
produce exactly the writes of the cells whose (glyph, style) pair differs, so
identical buffers give zero writes and buffers differing in exactly one cell
give exactly that one write; two buffers of differing size give a clear
followed by every cell of the new buffer. -/
theorem c2_end_drawing_differ :
    (∀ cur : CellBuffer, end_drawing_writes [cur] = full_writes cur) ∧
    (∀ (cur : CellBuffer) (c r : Nat), c < cur.width → r < cur.height →
      ConsoleWrite.cell c r (cur.atIdx c r) ∈ end_drawing_writes [cur]) ∧
    (∀ (prev cur : CellBuffer) (rest : List CellBuffer), cur.size = prev.size →
      ∀ w, w ∈ end_drawing_writes (prev :: cur :: rest) ↔
        ∃ c r, c < cur.width ∧ r < cur.height ∧ cur.atIdx c r ≠ prev.atIdx c r ∧
          w = ConsoleWrite.cell c r (cur.atIdx c r)) ∧
    (∀ b : CellBuffer, end_drawing_writes [b, b] = []) ∧
    (∀ (prev cur : CellBuffer) (c0 r0 : Nat), cur.size = prev.size →
      c0 < cur.width → r0 < cur.height →
      (∀ c r, c < cur.width → r < cur.height →
        (cur.atIdx c r ≠ prev.atIdx c r ↔ c = c0 ∧ r = r0)) →
      end_drawing_writes [prev, cur] = [ConsoleWrite.cell c0 r0 (cur.atIdx c0 r0)]) ∧
    (∀ prev cur : CellBuffer, cur.size ≠ prev.size →
      end_drawing_writes [prev, cur] = ConsoleWrite.clear :: full_writes cur) := by
  refine ⟨fun cur => rfl, ?_, ?_, ?_, ?_, ?_⟩
  · intro cur c r hc hr
    show ConsoleWrite.cell c r (cur.atIdx c r) ∈ full_writes cur
    unfold full_writes
    rw [List.mem_flatMap]
    refine ⟨r, by simp [hr], ?_⟩
    rw [List.mem_map]
    exact ⟨c, by simp [hc], rfl⟩
  · intro prev cur rest hsz w
    show w ∈ (if cur.size = prev.size then diff_writes prev cur
      else ConsoleWrite.clear :: full_writes cur) ↔ _
    rw [if_pos hsz]
    exact mem_diff_writes
  · intro b
    show (if b.size = b.size then diff_writes b b else _) = []
    rw [if_pos rfl]
    exact diff_writes_self b
  · intro prev cur c0 r0 hsz hc hr hdiff
    show (if cur.size = prev.size then diff_writes prev cur else _) = _
    rw [if_pos hsz]
    exact diff_writes_single hc hr hdiff
  · intro prev cur hsz
    show (if cur.size = prev.size then _ else ConsoleWrite.clear :: full_writes cur) = _
    rw [if_neg hsz]

theorem c2_end_drawing_differ_witness :
    ConsoleWrite.cell 1 1 ((CellBuffer.ofSize ⟨2, 2⟩).atIdx 1 1) ∈
        end_drawing_writes [CellBuffer.ofSize ⟨2, 2⟩] ∧
    end_drawing_writes [CellBuffer.ofSize ⟨2, 2⟩, CellBuffer.ofSize ⟨2, 2⟩] = [] ∧
    end_drawing_writes
        [CellBuffer.ofSize ⟨2, 2⟩, (CellBuffer.ofSize ⟨2, 2⟩).setAt 1 0 ⟨65, {}⟩] =
      [ConsoleWrite.cell 1 0 (((CellBuffer.ofSize ⟨2, 2⟩).setAt 1 0 ⟨65, {}⟩).atIdx 1 0)] ∧
    end_drawing_writes [CellBuffer.ofSize ⟨1, 1⟩, CellBuffer.ofSize ⟨2, 2⟩] =
      ConsoleWrite.clear :: full_writes (CellBuffer.ofSize ⟨2, 2⟩) := by
  refine ⟨?_, ?_, ?_, ?_⟩
  · exact c2_end_drawing_differ.2.1 (CellBuffer.ofSize ⟨2, 2⟩) 1 1 (by decide) (by decide)
  · exact c2_end_drawing_differ.2.2.2.1 (CellBuffer.ofSize ⟨2, 2⟩)
  · refine c2_end_drawing_differ.2.2.2.2.1 (CellBuffer.ofSize ⟨2, 2⟩)
      ((CellBuffer.ofSize ⟨2, 2⟩).setAt 1 0 ⟨65, {}⟩) 1 0 (by decide) (by decide) (by decide) ?_
    intro c r hc hr
    have hc2 : c < 2 := hc
    have hr2 : r < 2 := hr
    interval_cases c <;> interval_cases r <;> decide
  · exact c2_end_drawing_differ.2.2.2.2.2 (CellBuffer.ofSize ⟨1, 1⟩) (CellBuffer.ofSize ⟨2, 2⟩)
      (by decide)

/-!  ## C6: the EndDrawing per-frame reset  -/

/-- C6 counterexample: the reset block at the top of EndDrawing leaves the
stored last mouse position untouched (here it stays (5,7) instead of being
reset to the default origin), refuting the part of the claim that says the
stored last mouse position is reset. -/
theorem c6_counterexample :
    (end_drawing_reset
        { btn_states := [⟨2, 1⟩, ⟨0, 0⟩, ⟨0, 0⟩, ⟨3, 0⟩], mouse_pos := ⟨5, 7⟩,
          mouse_scroll_v := 4, mouse_scroll_h := -2 }).mouse_pos = ⟨5, 7⟩ ∧
      (⟨5, 7⟩ : Position) ≠ ({} : Position) := by
  exact ⟨rfl, by decide⟩

/-- C6 amended: EndDrawing's reset zeroes both accumulated scroll deltas and
every per-button click and double-click counter (keeping the four entries),
but the stored last mouse position and the key-state table are left unchanged,
not reset. -/
theorem c6_end_drawing_reset_amended (s : InputState) :
    (end_drawing_reset s).mouse_scroll_v = 0 ∧
    (end_drawing_reset s).mouse_scroll_h = 0 ∧
    (∀ b ∈ (end_drawing_reset s).btn_states, b = ({} : BtnState)) ∧
    (end_drawing_reset s).btn_states.length = s.btn_states.length ∧
    (end_drawing_reset s).mouse_pos = s.mouse_pos ∧
    (end_drawing_reset s).key_states = s.key_states := by
  refine ⟨rfl, rfl, ?_, by simp [end_drawing_reset], rfl, rfl⟩
  intro b hb
  simp only [end_drawing_reset, List.mem_map] at hb
  obtain ⟨a, _, hab⟩ := hb
  exact hab.symm

/-!  ## C5: the scroll pivot  -/

theorem ratTrunc_zero : ratTrunc 0 = 0 := by
  rw [ratTrunc, if_pos le_rfl]
  exact Int.floor_zero

theorem scroll_vertical_zero (pivot : Position) (info : ScrollPaneInfo) :
    scroll_vertical pivot info 0 = pivot := by
  unfold scroll_vertical
  split
  · rfl
  · rw [if_pos]
    show ratTrunc (((0 : Int) : ℚ) * info.scroll_factor) = 0
    rw [show (((0 : Int) : ℚ) * info.scroll_factor) = 0 by push_cast; ring]
    exact ratTrunc_zero

theorem scroll_horizontal_zero (pivot : Position) (info : ScrollPaneInfo) :
    scroll_horizontal pivot info 0 = pivot := by
  unfold scroll_horizontal
  split
  · rfl
  · rw [if_pos]
    show ratTrunc (((0 : Int) : ℚ) * info.scroll_factor) = 0
    rw [show (((0 : Int) : ℚ) * info.scroll_factor) = 0 by push_cast; ring]
    exact ratTrunc_zero

theorem scroll_vertical_col (pivot : Position) (info : ScrollPaneInfo) (value : Int) :
    (scroll_vertical pivot info value).col = pivot.col := by
  unfold scroll_vertical
  split
  · rfl
  · dsimp only
    split
    · rfl
    · rfl

theorem scroll_horizontal_row (pivot : Position) (info : ScrollPaneInfo) (value : Int) :
    (scroll_horizontal pivot info value).row = pivot.row := by
  unfold scroll_horizontal
  split
  · rfl
  · dsimp only
    split
    · rfl
    · rfl

theorem scroll_vertical_row_bound {pivot : Position} {info : ScrollPaneInfo} {value : Int}
    (hlt : info.min_size.height < info.max_size.height) (hW : info.max_size.height < W64)
    (hp : pivot.row ≤ info.max_size.height - info.min_size.height - 1) :
    (scroll_vertical pivot info value).row ≤
      info.max_size.height - info.min_size.height - 1 := by
  have hbound : sub64 info.max_size.height info.min_size.height =
      info.max_size.height - info.min_size.height := sub64_eq_sub (le_of_lt hlt) hW
  have hb1 : sub64 (sub64 info.max_size.height info.min_size.height) 1 =
      info.max_size.height - info.min_size.height - 1 := by
    rw [hbound]
    exact sub64_eq_sub (by omega) (by omega)
  unfold scroll_vertical
  split
  · exact hp
  · dsimp only
    split
    · exact hp
    · dsimp only
      split_ifs <;> omega

theorem scroll_horizontal_col_bound {pivot : Position} {info : ScrollPaneInfo} {value : Int}
    (hlt : info.min_size.width < info.max_size.width) (hW : info.max_size.width < W64)
    (hp : pivot.col ≤ info.max_size.width - info.min_size.width - 1) :
    (scroll_horizontal pivot info value).col ≤
      info.max_size.width - info.min_size.width - 1 := by
  have hbound : sub64 info.max_size.width info.min_size.width =
      info.max_size.width - info.min_size.width := sub64_eq_sub (le_of_lt hlt) hW
  have hb1 : sub64 (sub64 info.max_size.width info.min_size.width) 1 =
      info.max_size.width - info.min_size.width - 1 := by
    rw [hbound]
    exact sub64_eq_sub (by omega) (by omega)
  unfold scroll_horizontal
  split
  · exact hp
  · dsimp only
    split
    · exact hp
    · dsimp only
      split_ifs <;> omega

theorem scroll_pane_event_pivot (pane_pos : Position) (info : ScrollPaneInfo)
    (acc : Int × Int × Position) (ev : Event) :
    (scroll_pane_event pane_pos info acc ev).2.2 = acc.2.2 ∨
      (scroll_pane_event pane_pos info acc ev).2.2 = ({} : Position) := by
  obtain ⟨h, v, p⟩ := acc
  cases ev with
  | mouse ev =>
    obtain ⟨kind, btn, pos, mods⟩ := ev
    cases kind <;> dsimp only [scroll_pane_event] <;>
      first
      | (split_ifs <;> simp)
      | simp
  | key ev => left; rfl
  | focus g => left; rfl
  | resize s => left; rfl

theorem scroll_fold_pivot (pane_pos : Position) (info : ScrollPaneInfo)
    (events : List Event) :
    ∀ acc : Int × Int × Position,
      (events.foldl (scroll_pane_event pane_pos info) acc).2.2 = acc.2.2 ∨
        (events.foldl (scroll_pane_event pane_pos info) acc).2.2 = ({} : Position) := by
  induction events with
  | nil => intro acc; left; rfl
  | cons ev t ih =>
    intro acc
    rw [List.foldl_cons]
    rcases ih (scroll_pane_event pane_pos info acc ev) with h1 | h1
    · rw [h1]
      exact scroll_pane_event_pivot pane_pos info acc ev
    · right
      exact h1

theorem begin_scroll_pane_pivot_bound {pane_pos pivot0 : Position} {info : ScrollPaneInfo}
    {events : List Event}
    (hw : info.min_size.width < info.max_size.width) (hwW : info.max_size.width < W64)
    (hh : info.min_size.height < info.max_size.height) (hhW : info.max_size.height < W64)
    (hc : pivot0.col ≤ info.max_size.width - info.min_size.width - 1)
    (hr : pivot0.row ≤ info.max_size.height - info.min_size.height - 1) :
    (begin_scroll_pane_pivot pane_pos pivot0 info events).col ≤
        info.max_size.width - info.min_size.width - 1 ∧
      (begin_scroll_pane_pivot pane_pos pivot0 info events).row ≤
        info.max_size.height - info.min_size.height - 1 := by
  unfold begin_scroll_pane_pivot
  dsimp only
  set acc := events.foldl (scroll_pane_event pane_pos info) (0, 0, pivot0) with hacc
  have hpiv : acc.2.2.col ≤ info.max_size.width - info.min_size.width - 1 ∧
      acc.2.2.row ≤ info.max_size.height - info.min_size.height - 1 := by
    rcases scroll_fold_pivot pane_pos info events (0, 0, pivot0) with h1 | h1 <;>
      rw [hacc] at * <;> rw [h1]
    · exact ⟨hc, hr⟩
    · exact ⟨Nat.zero_le _, Nat.zero_le _⟩
  constructor
  · rw [scroll_vertical_col]
    exact scroll_horizontal_col_bound hw hwW hpiv.1
  · apply scroll_vertical_row_bound hh hhW
    rw [scroll_horizontal_row]
    exact hpiv.2

theorem scroll_frames_bound {pane_pos : Position} {info : ScrollPaneInfo}
    {batches : List (List Event)}
    (hw : info.min_size.width < info.max_size.width) (hwW : info.max_size.width < W64)
    (hh : info.min_size.height < info.max_size.height) (hhW : info.max_size.height < W64) :
    ∀ pivot0 : Position,
      pivot0.col ≤ info.max_size.width - info.min_size.width - 1 →
      pivot0.row ≤ info.max_size.height - info.min_size.height - 1 →
      (scroll_frames pane_pos info pivot0 batches).col ≤
          info.max_size.width - info.min_size.width - 1 ∧
        (scroll_frames pane_pos info pivot0 batches).row ≤
          info.max_size.height - info.min_size.height - 1 := by
  induction batches with
  | nil => intro pivot0 hc hr; exact ⟨hc, hr⟩
  | cons evs t ih =>
    intro pivot0 hc hr
    rw [scroll_frames, List.foldl_cons]
    have hstep := @begin_scroll_pane_pivot_bound pane_pos pivot0 info evs hw hwW hh hhW hc hr
    exact ih _ hstep.1 hstep.2

theorem scroll_vertical_eq_amended {pivot : Position} {info : ScrollPaneInfo} {count : Int}
    (hbar : info.show_vscroll_bar = true)
    (hlt : info.min_size.height < info.max_size.height) (hW : info.max_size.height < W64)
    (hp : pivot.row ≤ info.max_size.height - info.min_size.height - 1)
    (hd : (ratTrunc ((count : ℚ) * info.scroll_factor)).natAbs <
      W64 - info.max_size.height) :
    (scroll_vertical pivot info count).row =
      pivot_move_amended pivot.row info.min_size.height info.max_size.height count
        info.scroll_factor := by
  have hbound : sub64 info.max_size.height info.min_size.height =
      info.max_size.height - info.min_size.height := sub64_eq_sub (le_of_lt hlt) hW
  have hb1 : sub64 (sub64 info.max_size.height info.min_size.height) 1 =
      info.max_size.height - info.min_size.height - 1 := by
    rw [hbound]
    exact sub64_eq_sub (by omega) (by omega)
  unfold scroll_vertical pivot_move_amended
  simp only [hbar, Bool.not_true, Bool.false_eq_true, if_false]
  set d := ratTrunc ((count : ℚ) * info.scroll_factor) with hdd
  by_cases hd0 : d = 0
  · simp [hd0]
  · rw [if_neg hd0, if_neg hd0]
    dsimp only
    by_cases hpos : 0 < d
    · rw [if_pos hpos]
      have hadd : add64 pivot.row d.toNat = pivot.row + d.toNat :=
        add64_eq_add (by omega)
      rw [hadd]
      split_ifs <;> omega
    · rw [if_neg hpos]
      split_ifs <;> omega

theorem scroll_horizontal_eq_amended {pivot : Position} {info : ScrollPaneInfo} {count : Int}
    (hbar : info.show_hscroll_bar = true)
    (hlt : info.min_size.width < info.max_size.width) (hW : info.max_size.width < W64)
    (hp : pivot.col ≤ info.max_size.width - info.min_size.width - 1)
    (hd : (ratTrunc ((count : ℚ) * info.scroll_factor)).natAbs <
      W64 - info.max_size.width) :
    (scroll_horizontal pivot info count).col =
      pivot_move_amended pivot.col info.min_size.width info.max_size.width count
        info.scroll_factor := by
  have hbound : sub64 info.max_size.width info.min_size.width =
      info.max_size.width - info.min_size.width := sub64_eq_sub (le_of_lt hlt) hW
  have hb1 : sub64 (sub64 info.max_size.width info.min_size.width) 1 =
      info.max_size.width - info.min_size.width - 1 := by
    rw [hbound]
    exact sub64_eq_sub (by omega) (by omega)
  unfold scroll_horizontal pivot_move_amended
  simp only [hbar, Bool.not_true, Bool.false_eq_true, if_false]
  set d := ratTrunc ((count : ℚ) * info.scroll_factor) with hdd
  by_cases hd0 : d = 0
  · simp [hd0]
  · rw [if_neg hd0, if_neg hd0]
    dsimp only
    by_cases hpos : 0 < d
    · rw [if_pos hpos]
      have hadd : add64 pivot.col d.toNat = pivot.col + d.toNat :=
        add64_eq_add (by omega)
      rw [hadd]
      split_ifs <;> omega
    · rw [if_neg hpos]
      split_ifs <;> omega

theorem begin_scroll_pane_home {pane_pos pivot0 p : Position} {info : ScrollPaneInfo}
    {mods : Nat}
    (h1 : p.sub pane_pos = home_cell_btn info)
    (h2 : p.sub pane_pos ≠ left_scroll_btn info)
    (h3 : p.sub pane_pos ≠ right_scroll_btn info)
    (h4 : p.sub pane_pos ≠ top_scroll_btn info)
    (h5 : p.sub pane_pos ≠ bottom_scroll_btn info) :
    begin_scroll_pane_pivot pane_pos pivot0 info
      [Event.mouse ⟨MouseEventKind.click, MouseButton.left, p, mods⟩] = ({} : Position) := by
  unfold begin_scroll_pane_pivot
  rw [List.foldl_cons, List.foldl_nil]
  have hstep : scroll_pane_event pane_pos info (0, 0, pivot0)
      (Event.mouse ⟨MouseEventKind.click, MouseButton.left, p, mods⟩) =
        (0, 0, ({} : Position)) := by
    dsimp only [scroll_pane_event]
    rw [if_neg (fun hh : MouseButton.left ≠ MouseButton.left => hh rfl)]
    rw [if_neg h2, if_neg h3, if_neg h4, if_neg h5, if_pos h1]
  rw [hstep]
  dsimp only
  rw [scroll_horizontal_zero, scroll_vertical_zero]

/-- C5 counterexample: with scroll_factor 3/2, one scroll unit moves the pivot
row by trunc(1 * 3/2) = 1, while the claim's round(1 * 3/2) = 2 — the code
truncates the float product toward zero instead of rounding. -/
theorem c5_counterexample :
    (scroll_vertical ⟨0, 0⟩
        { min_size := ⟨5, 5⟩, max_size := ⟨100, 100⟩, scroll_factor := 3 / 2 } 1).row = 1 ∧
      round ((1 : ℚ) * (3 / 2)) = 2 := by
  constructor
  · norm_num [scroll_vertical, ratTrunc, add64, sub64, W64]
  · norm_num [round_eq]

/-- C5 amended: starting from the origin, after any sequence of scroll-input
batches processed by BeginScrollPane the pivot stays within
[0, max_size - min_size - 1] on each axis with min_size < max_size; a nonzero
batch moves each axis by the truncation toward zero (not the rounding) of
count * scroll_factor, clamped to that interval; and a left click on the home
button cell resets the pivot to the origin. -/
theorem c5_scroll_pivot_amended :
    (∀ (pane_pos : Position) (info : ScrollPaneInfo) (batches : List (List Event)),
      info.min_size.width < info.max_size.width → info.max_size.width < W64 →
      info.min_size.height < info.max_size.height → info.max_size.height < W64 →
      (scroll_frames pane_pos info {} batches).col ≤
          info.max_size.width - info.min_size.width - 1 ∧
        (scroll_frames pane_pos info {} batches).row ≤
          info.max_size.height - info.min_size.height - 1) ∧
    (∀ (pivot : Position) (info : ScrollPaneInfo) (count : Int),
      info.show_vscroll_bar = true →
      info.min_size.height < info.max_size.height → info.max_size.height < W64 →
      pivot.row ≤ info.max_size.height - info.min_size.height - 1 →
      (ratTrunc ((count : ℚ) * info.scroll_factor)).natAbs <
        W64 - info.max_size.height →
      (scroll_vertical pivot info count).row =
        pivot_move_amended pivot.row info.min_size.height info.max_size.height count
          info.scroll_factor) ∧
    (∀ (pivot : Position) (info : ScrollPaneInfo) (count : Int),
      info.show_hscroll_bar = true →
      info.min_size.width < info.max_size.width → info.max_size.width < W64 →
      pivot.col ≤ info.max_size.width - info.min_size.width - 1 →
      (ratTrunc ((count : ℚ) * info.scroll_factor)).natAbs <
        W64 - info.max_size.width →
      (scroll_horizontal pivot info count).col =
        pivot_move_amended pivot.col info.min_size.width info.max_size.width count
          info.scroll_factor) ∧
    (∀ (pane_pos pivot0 p : Position) (info : ScrollPaneInfo) (mods : Nat),
      p.sub pane_pos = home_cell_btn info →
      p.sub pane_pos ≠ left_scroll_btn info →
      p.sub pane_pos ≠ right_scroll_btn info →
      p.sub pane_pos ≠ top_scroll_btn info →
      p.sub pane_pos ≠ bottom_scroll_btn info →
      begin_scroll_pane_pivot pane_pos pivot0 info
        [Event.mouse ⟨MouseEventKind.click, MouseButton.left, p, mods⟩] = ({} : Position)) := by
  refine ⟨?_, ?_, ?_, ?_⟩
  · intro pane_pos info batches hw hwW hh hhW
    exact scroll_frames_bound hw hwW hh hhW {} (Nat.zero_le _) (Nat.zero_le _)
  · intro pivot info count hbar hlt hW hp hd
    exact scroll_vertical_eq_amended hbar hlt hW hp hd
  · intro pivot info count hbar hlt hW hp hd
    exact scroll_horizontal_eq_amended hbar hlt hW hp hd
  · intro pane_pos pivot0 p info mods h1 h2 h3 h4 h5
    exact begin_scroll_pane_home h1 h2 h3 h4 h5

theorem c5_scroll_pivot_amended_witness :
    ((scroll_frames ⟨0, 0⟩ { min_size := ⟨5, 5⟩, max_size := ⟨100, 100⟩ } ⟨0, 0⟩
        [[Event.mouse ⟨MouseEventKind.scrollDown, MouseButton.none, ⟨2, 2⟩, 0⟩]]).col ≤ 94 ∧
      (scroll_frames ⟨0, 0⟩ { min_size := ⟨5, 5⟩, max_size := ⟨100, 100⟩ } ⟨0, 0⟩
        [[Event.mouse ⟨MouseEventKind.scrollDown, MouseButton.none, ⟨2, 2⟩, 0⟩]]).row ≤ 94) ∧
    (scroll_vertical ⟨0, 3⟩ { min_size := ⟨5, 5⟩, max_size := ⟨100, 100⟩ } 2).row =
      pivot_move_amended 3 5 100 2 1 ∧
    (scroll_horizontal ⟨3, 0⟩ { min_size := ⟨5, 5⟩, max_size := ⟨100, 100⟩ } (-5)).col =
      pivot_move_amended 3 5 100 (-5) 1 ∧
    begin_scroll_pane_pivot ⟨0, 0⟩ ⟨7, 7⟩ { min_size := ⟨5, 5⟩, max_size := ⟨100, 100⟩ }
      [Event.mouse ⟨MouseEventKind.click, MouseButton.left, ⟨4, 4⟩, 0⟩] = ({} : Position) := by
  refine ⟨?_, ?_, ?_, ?_⟩
  · exact c5_scroll_pivot_amended.1 ⟨0, 0⟩ { min_size := ⟨5, 5⟩, max_size := ⟨100, 100⟩ }
      [[Event.mouse ⟨MouseEventKind.scrollDown, MouseButton.none, ⟨2, 2⟩, 0⟩]]
      (by norm_num) (by norm_num [W64]) (by norm_num) (by norm_num [W64])
  · exact c5_scroll_pivot_amended.2.1 ⟨0, 3⟩ { min_size := ⟨5, 5⟩, max_size := ⟨100, 100⟩ } 2
      rfl (by norm_num) (by norm_num [W64]) (by norm_num)
      (by norm_num [ratTrunc, W64])
  · refine c5_scroll_pivot_amended.2.2.1 ⟨3, 0⟩ { min_size := ⟨5, 5⟩, max_size := ⟨100, 100⟩ }
      (-5) rfl (by norm_num) (by norm_num [W64]) (by norm_num) ?_
    show (ratTrunc (((-5 : Int) : ℚ) * 1)).natAbs < W64 - 100
    rw [show (((-5 : Int) : ℚ) * 1) = ((-5 : Int) : ℚ) by ring]
    rw [show ratTrunc ((-5 : Int) : ℚ) = -5 by
      rw [ratTrunc, if_neg (by norm_num)]
      exact Int.ceil_intCast (-5)]
    norm_num [W64]
  · exact c5_scroll_pivot_amended.2.2.2 ⟨0, 0⟩ ⟨7, 7⟩ ⟨4, 4⟩
      { min_size := ⟨5, 5⟩, max_size := ⟨100, 100⟩ } 0
      (by decide) (by decide) (by decide) (by decide) (by decide)

/-!  ## C7: the text edit engine  -/

theorem getD_take {l : List Nat} {n i : Nat} (h : i < n) :
    (l.take n).getD i 0 = l.getD i 0 := by
  rw [List.getD_eq_getElem?_getD, List.getD_eq_getElem?_getD, List.getElem?_take, if_pos h]

theorem getD_drop {l : List Nat} (n i : Nat) :
    (l.drop n).getD i 0 = l.getD (n + i) 0 := by
  rw [List.getD_eq_getElem?_getD, List.getD_eq_getElem?_getD, List.getElem?_drop]

theorem find_first_of_none {l : List Nat} {c : Nat}
    (h : ∀ i, i < l.length → l.getD i 0 ≠ c) : find_first_of l c = none := by
  induction l with
  | nil => rfl
  | cons a t ih =>
    unfold find_first_of
    rw [if_neg (show ¬a = c by simpa using h 0 (by simp))]
    rw [ih (fun i hi => by simpa using h (i + 1) (by simpa using hi))]
    rfl

theorem find_first_of_some {l : List Nat} {c : Nat} :
    ∀ j, j < l.length → l.getD j 0 = c → (∀ i, i < j → l.getD i 0 ≠ c) →
      find_first_of l c = some j := by
  induction l with
  | nil => intro j hj; simp at hj
  | cons a t ih =>
    intro j hj hjc hb
    unfold find_first_of
    cases j with
    | zero => rw [if_pos (show a = c by simpa using hjc)]
    | succ j =>
      rw [if_neg (show ¬a = c by simpa using hb 0 (by omega))]
      rw [ih j (by simpa using hj) (by simpa using hjc)
        (fun i hi => by simpa using hb (i + 1) (by omega))]
      rfl

theorem find_last_of_none {l : List Nat} {c : Nat}
    (h : ∀ i, i < l.length → l.getD i 0 ≠ c) : find_last_of l c = none := by
  induction l with
  | nil => rfl
  | cons a t ih =>
    unfold find_last_of
    rw [ih (fun i hi => by simpa using h (i + 1) (by simpa using hi))]
    dsimp only
    rw [if_neg (show ¬a = c by simpa using h 0 (by simp))]

theorem find_last_of_some {l : List Nat} {c : Nat} :
    ∀ j, j < l.length → l.getD j 0 = c →
      (∀ i, j < i → i < l.length → l.getD i 0 ≠ c) → find_last_of l c = some j := by
  induction l with
  | nil => intro j hj; simp at hj
  | cons a t ih =>
    intro j hj hjc hafter
    unfold find_last_of
    cases j with
    | zero =>
      rw [find_last_of_none
        (fun i hi => by simpa using hafter (i + 1) (by omega) (by simpa using hi))]
      dsimp only
      rw [if_pos (show a = c by simpa using hjc)]
    | succ j =>
      rw [ih j (by simpa using hj) (by simpa using hjc)
        (fun i h1 h2 => by simpa using hafter (i + 1) (by omega) (by simpa using h2))]

theorem go_home_not_found {s : TextInputState} (hcl : s.cursor ≤ s.data.length)
    (hW : s.cursor < W64 - 1) (hno : ∀ i, i < s.cursor → s.data.getD i 0 ≠ 10) :
    s.go_home.cursor = 0 := by
  unfold TextInputState.go_home
  have hlen : (s.data.take s.cursor).length = s.cursor := by
    rw [List.length_take]
    omega
  rw [find_last_of_none (fun i hi => by
    rw [hlen] at hi
    rw [getD_take hi]
    exact hno i hi)]
  dsimp only
  rw [if_neg (by omega)]
  rw [show W64 - 1 + 1 = W64 by have := W64_pos; omega]
  exact Nat.mod_self W64

theorem go_home_found {s : TextInputState} {j : Nat} (hcl : s.cursor ≤ s.data.length)
    (hW : s.cursor < W64 - 1) (hj : j < s.cursor) (hnl : s.data.getD j 0 = 10)
    (hafter : ∀ i, j < i → i < s.cursor → s.data.getD i 0 ≠ 10) :
    s.go_home.cursor = j + 1 := by
  unfold TextInputState.go_home
  have hlen : (s.data.take s.cursor).length = s.cursor := by
    rw [List.length_take]
    omega
  rw [find_last_of_some j (by omega) (by rw [getD_take hj]; exact hnl)
    (fun i h1 h2 => by
      rw [hlen] at h2
      rw [getD_take h2]
      exact hafter i h1 h2)]
  dsimp only
  rw [if_neg (by omega)]
  exact Nat.mod_eq_of_lt (by omega)

theorem go_end_not_found {s : TextInputState}
    (hno : ∀ i, s.cursor ≤ i → i < s.data.length → s.data.getD i 0 ≠ 10) :
    s.go_end.cursor = s.data.length := by
  unfold TextInputState.go_end
  rw [find_first_of_none (fun i hi => by
    rw [List.length_drop] at hi
    rw [getD_drop]
    exact hno (s.cursor + i) (by omega) (by omega))]

theorem go_end_found {s : TextInputState} {j : Nat} (hj : s.cursor ≤ j)
    (hjl : j < s.data.length) (hnl : s.data.getD j 0 = 10)
    (hbefore : ∀ i, s.cursor ≤ i → i < j → s.data.getD i 0 ≠ 10) :
    s.go_end.cursor = j := by
  unfold TextInputState.go_end
  rw [find_first_of_some (j - s.cursor)
    (by rw [List.length_drop]; omega)
    (by rw [getD_drop, show s.cursor + (j - s.cursor) = j by omega]; exact hnl)
    (fun i hi => by
      rw [getD_drop]
      exact hbefore (s.cursor + i) (by omega) (by omega))]
  dsimp only
  omega

theorem text_input_key_printable {hev : Bool} {s : TextInputState} {k c : Nat}
    (hk : k ∉ text_input_handled_keys) (hc : is_print c = true)
    (hs : s.selection_mode = false) :
    text_input_key hev s ⟨true, k, c, 0⟩ = s.insert_char c := by
  simp only [text_input_handled_keys, List.mem_cons, List.not_mem_nil, or_false,
    not_or] at hk
  obtain ⟨h1, h2, h3, h4, h5, h6, h7, h8, h9⟩ := hk
  unfold text_input_key
  dsimp only
  rw [if_neg (by decide : ¬((!true) = true))]
  rw [if_neg h1, if_neg h2, if_neg h3, if_neg h4, if_neg h5, if_neg h6, if_neg h7,
    if_neg h8, if_neg h9]
  rw [if_pos ⟨Or.inl rfl, hc⟩]
  rw [hs]
  rw [if_neg (by decide : ¬(false = true))]

theorem insert_char_overwrite {s : TextInputState} (hin : s.insert_mode = true)
    (hc : s.cursor < s.data.length) (c : Nat) :
    s.insert_char c =
      { s with
        data := s.data.take s.cursor ++ [c] ++ s.data.drop (s.cursor + 1)
        cursor := s.cursor + 1 } := by
  unfold TextInputState.insert_char
  rw [if_pos hin]
  unfold TextInputState.move_right
  have hlen : (s.data.take s.cursor ++ [c] ++ s.data.drop (s.cursor + 1)).length =
      s.data.length := by
    simp only [List.length_append, List.length_take, List.length_drop,
      List.length_cons, List.length_nil]
    omega
  dsimp only
  rw [hlen]
  split_ifs with h
  · have : s.data.length = s.cursor + 1 := by omega
    rw [this]
  · rfl

/-- C7: the text edit engine. Typing a, b, c into an empty TextInputState, then
Home, Shift+End, Backspace yields an empty buffer with cursor 0. From buffer
abc with cursor 0, toggling overwrite (Insert) and typing three printable
characters replaces in place: the buffer becomes exactly those three
characters, length still 3. Home moves the cursor just past the nearest
newline scanning backward (buffer start when there is none); End moves it to
the nearest newline scanning forward (buffer end when there is none). -/
theorem c7_text_edit_engine :
    ((text_input_run false {}
        [Event.key ⟨true, KC_K_A, 97, 0⟩, Event.key ⟨true, KC_K_A + 1, 98, 0⟩,
         Event.key ⟨true, KC_K_A + 2, 99, 0⟩, Event.key ⟨true, KC_HOME, 0, 0⟩,
         Event.key ⟨true, KC_END, 0, KEY_SHIFT⟩,
         Event.key ⟨true, KC_BACKSPACE, 8, 0⟩]).data = [] ∧
      (text_input_run false {}
        [Event.key ⟨true, KC_K_A, 97, 0⟩, Event.key ⟨true, KC_K_A + 1, 98, 0⟩,
         Event.key ⟨true, KC_K_A + 2, 99, 0⟩, Event.key ⟨true, KC_HOME, 0, 0⟩,
         Event.key ⟨true, KC_END, 0, KEY_SHIFT⟩,
         Event.key ⟨true, KC_BACKSPACE, 8, 0⟩]).cursor = 0) ∧
    (∀ k1 k2 k3 c1 c2 c3 : Nat,
      k1 ∉ text_input_handled_keys → k2 ∉ text_input_handled_keys →
      k3 ∉ text_input_handled_keys →
      is_print c1 = true → is_print c2 = true → is_print c3 = true →
      (text_input_run false ⟨true, false, [97, 98, 99], 0, false, 0⟩
          [Event.key ⟨true, KC_INSERT, 0, 0⟩, Event.key ⟨true, k1, c1, 0⟩,
           Event.key ⟨true, k2, c2, 0⟩, Event.key ⟨true, k3, c3, 0⟩]).data =
            [c1, c2, c3] ∧
        (text_input_run false ⟨true, false, [97, 98, 99], 0, false, 0⟩
          [Event.key ⟨true, KC_INSERT, 0, 0⟩, Event.key ⟨true, k1, c1, 0⟩,
           Event.key ⟨true, k2, c2, 0⟩, Event.key ⟨true, k3, c3, 0⟩]).data.length = 3) ∧
    (∀ s : TextInputState, s.cursor ≤ s.data.length → s.cursor < W64 - 1 →
      (∀ i, i < s.cursor → s.data.getD i 0 ≠ 10) → s.go_home.cursor = 0) ∧
    (∀ (s : TextInputState) (j : Nat), s.cursor ≤ s.data.length → s.cursor < W64 - 1 →
      j < s.cursor → s.data.getD j 0 = 10 →
      (∀ i, j < i → i < s.cursor → s.data.getD i 0 ≠ 10) → s.go_home.cursor = j + 1) ∧
    (∀ s : TextInputState,
      (∀ i, s.cursor ≤ i → i < s.data.length → s.data.getD i 0 ≠ 10) →
      s.go_end.cursor = s.data.length) ∧
    (∀ (s : TextInputState) (j : Nat), s.cursor ≤ j → j < s.data.length →
      s.data.getD j 0 = 10 →
      (∀ i, s.cursor ≤ i → i < j → s.data.getD i 0 ≠ 10) → s.go_end.cursor = j) := by
  refine ⟨⟨by decide, by decide⟩, ?_,
    fun s h1 h2 h3 => go_home_not_found h1 h2 h3,
    fun s j h1 h2 h3 h4 h5 => go_home_found h1 h2 h3 h4 h5,
    fun s h1 => go_end_not_found h1,
    fun s j h1 h2 h3 h4 => go_end_found h1 h2 h3 h4⟩
  intro k1 k2 k3 c1 c2 c3 hk1 hk2 hk3 hc1 hc2 hc3
  have e0 : text_input_key false ⟨true, false, [97, 98, 99], 0, false, 0⟩
      ⟨true, KC_INSERT, 0, 0⟩ = ⟨true, true, [97, 98, 99], 0, false, 0⟩ := by decide
  have e1 : text_input_key false ⟨true, true, [97, 98, 99], 0, false, 0⟩
      ⟨true, k1, c1, 0⟩ = ⟨true, true, [c1, 98, 99], 1, false, 0⟩ := by
    rw [text_input_key_printable hk1 hc1 rfl]
    rw [insert_char_overwrite rfl (by norm_num)]
    simp
  have e2 : text_input_key false ⟨true, true, [c1, 98, 99], 1, false, 0⟩
      ⟨true, k2, c2, 0⟩ = ⟨true, true, [c1, c2, 99], 2, false, 0⟩ := by
    rw [text_input_key_printable hk2 hc2 rfl]
    rw [insert_char_overwrite rfl (by norm_num)]
    simp
  have e3 : text_input_key false ⟨true, true, [c1, c2, 99], 2, false, 0⟩
      ⟨true, k3, c3, 0⟩ = ⟨true, true, [c1, c2, c3], 3, false, 0⟩ := by
    rw [text_input_key_printable hk3 hc3 rfl]
    rw [insert_char_overwrite rfl (by norm_num)]
    simp
  unfold text_input_run
  simp only [List.foldl_cons, List.foldl_nil]
  rw [e0, e1, e2, e3]
  exact ⟨rfl, rfl⟩

theorem c7_text_edit_engine_witness :
    (text_input_run false ⟨true, false, [97, 98, 99], 0, false, 0⟩
        [Event.key ⟨true, KC_INSERT, 0, 0⟩, Event.key ⟨true, KC_K_A + 23, 120, 0⟩,
         Event.key ⟨true, KC_K_A + 24, 121, 0⟩,
         Event.key ⟨true, KC_K_A + 25, 122, 0⟩]).data = [120, 121, 122] ∧
    (⟨true, false, [97, 98, 99], 2, false, 0⟩ : TextInputState).go_home.cursor = 0 ∧
    (⟨true, false, [97, 10, 98, 99], 3, false, 0⟩ : TextInputState).go_home.cursor = 2 ∧
    (⟨true, false, [97, 98, 99], 1, false, 0⟩ : TextInputState).go_end.cursor = 3 ∧
    (⟨true, false, [97, 10, 98], 0, false, 0⟩ : TextInputState).go_end.cursor = 1 := by
  refine ⟨?_, ?_, ?_, ?_, ?_⟩
  · exact (c7_text_edit_engine.2.1 (KC_K_A + 23) (KC_K_A + 24) (KC_K_A + 25) 120 121 122
      (by decide) (by decide) (by decide) (by decide) (by decide) (by decide)).1
  · exact c7_text_edit_engine.2.2.1 ⟨true, false, [97, 98, 99], 2, false, 0⟩
      (by decide) (by decide) (by decide)
  · refine c7_text_edit_engine.2.2.2.1 ⟨true, false, [97, 10, 98, 99], 3, false, 0⟩ 1
      (by decide) (by decide) (by decide) (by decide) ?_
    intro i h1 h2
    have h2b : i < 3 := h2
    interval_cases i <;> decide
  · refine c7_text_edit_engine.2.2.2.2.1 ⟨true, false, [97, 98, 99], 1, false, 0⟩ ?_
    intro i h1 h2
    have h1b : 1 ≤ i := h1
    have h2b : i < 3 := h2
    interval_cases i <;> decide
  · refine c7_text_edit_engine.2.2.2.2.2 ⟨true, false, [97, 10, 98], 0, false, 0⟩ 1
      (by decide) (by decide) (by decide) ?_
    intro i h1 h2
    have h2b : i < 1 := h2
    interval_cases i <;> decide

/-!  ## C10: ProgressBar clamping and write extent  -/

theorem progress_bar_loop_cols (motion : List StyledChar) :
    ∀ fuel req c0, ∀ w ∈ progress_bar_loop motion fuel req c0,
      c0 ≤ w.1 ∧ w.1 < c0 + (progress_bar_loop motion fuel req c0).length := by
  intro fuel
  induction fuel with
  | zero =>
    intro req c0 w hw
    simp [progress_bar_loop] at hw
  | succ f ih =>
    intro req c0 w hw
    rw [progress_bar_loop] at hw ⊢
    split_ifs at hw ⊢ with h1 h2
    · simp at hw
    · rw [List.mem_cons] at hw
      rcases hw with rfl | hw
    -- placeholder
      · simp
      · have := ih (req - motion.length) (c0 + 1) w hw
        simp only [List.length_cons]
        omega
    · rw [List.mem_singleton] at hw
      subst hw
      simp

theorem progress_bar_loop_len (motion : List StyledChar) (hm : 1 ≤ motion.length) :
    ∀ fuel req c0 n, req ≤ n * motion.length →
      (progress_bar_loop motion fuel req c0).length ≤ n := by
  intro fuel
  induction fuel with
  | zero =>
    intro req c0 n _
    simp [progress_bar_loop]
  | succ f ih =>
    intro req c0 n hreq
    rw [progress_bar_loop]
    split_ifs with h1 h2
    · simp
    · have hn1 : 1 ≤ n := by
        rcases Nat.eq_zero_or_pos n with h | h
        · subst h
          simp at hreq
          omega
        · exact h
      have hsubmul := Nat.sub_mul n 1 motion.length
      have hsub : req - motion.length ≤ (n - 1) * motion.length := by omega
      have := ih (req - motion.length) (c0 + 1) (n - 1) hsub
      simp only [List.length_cons]
      omega
    · have hn1 : 1 ≤ n := by
        rcases Nat.eq_zero_or_pos n with h | h
        · subst h
          simp at hreq
          omega
        · exact h
      simpa using hn1

theorem ratFloorNat_le_of_le_one {v : ℚ} {X : Nat} (h0 : 0 ≤ v) (h1 : v ≤ 1) :
    ratFloorNat (v * (X : ℚ)) ≤ X := by
  unfold ratFloorNat
  have hle : v * (X : ℚ) ≤ (X : ℚ) := by nlinarith [Nat.cast_nonneg (α := ℚ) X]
  have hfl : ⌊v * (X : ℚ)⌋ ≤ ⌊(X : ℚ)⌋ := Int.floor_le_floor hle
  rw [Int.floor_natCast] at hfl
  omega

/-- C10: ProgressBar clamps the incoming value to [0, 1] before rendering
(values below 0 render exactly like 0, values above 1 exactly like 1), and
every cell write it issues lands on row info.pos.row at a column in
[info.pos.col, info.pos.col + info.length), never beyond info.length cells. -/
theorem c10_progress_bar_writes :
    (∀ info : ProgressBarInfo, info.value < 0 →
      progress_bar_writes info = progress_bar_writes { info with value := 0 }) ∧
    (∀ info : ProgressBarInfo, 1 < info.value →
      progress_bar_writes info = progress_bar_writes { info with value := 1 }) ∧
    (∀ (info : ProgressBarInfo) (w : Position × StyledChar),
      info.pos.col + info.length < W64 → w ∈ progress_bar_writes info →
      w.1.row = info.pos.row ∧ info.pos.col ≤ w.1.col ∧
        w.1.col < info.pos.col + info.length) := by
  refine ⟨?_, ?_, ?_⟩
  · intro info hv
    unfold progress_bar_writes
    dsimp only
    rw [if_pos hv, if_neg (by norm_num : ¬(0 : ℚ) < 0)]
  · intro info hv
    unfold progress_bar_writes
    dsimp only
    rw [if_neg (by linarith : ¬info.value < 0), if_pos hv,
      if_neg (by norm_num : ¬(1 : ℚ) < 0), if_neg (by norm_num : ¬(1 : ℚ) < 1)]
  · intro info w hW hw
    unfold progress_bar_writes at hw
    dsimp only at hw
    set v1 : ℚ := if info.value < 0 then 0 else info.value with hv1
    set v2 : ℚ := if 1 < v1 then 1 else v1 with hv2
    have hcv : 0 ≤ v2 ∧ v2 ≤ 1 := by
      rw [hv2, hv1]
      split_ifs <;> constructor <;> linarith
    set R : Nat := ratFloorNat (v2 * ((info.length * info.motion.length : Nat) : ℚ))
      with hR
    have hlooplen : (progress_bar_loop info.motion R R 0).length ≤ info.length := by
      rcases Nat.eq_zero_or_pos info.motion.length with hm | hm
      · have hR0 : R = 0 := by
          rw [hR, hm]
          norm_num [ratFloorNat, Int.floor_zero]
        rw [hR0]
        simp [progress_bar_loop]
      · apply progress_bar_loop_len info.motion hm
        rw [hR]
        exact ratFloorNat_le_of_le_one hcv.1 hcv.2
    rcases List.mem_append.1 hw with h | h
    · obtain ⟨cw, hc, rfl⟩ := List.mem_map.1 h
      have hcols := progress_bar_loop_cols info.motion R R 0 cw hc
      have hcol : cw.1 < info.length := by omega
      rw [add64_eq_add (by omega)]
      refine ⟨rfl, ?_, ?_⟩ <;> dsimp only <;> omega
    · obtain ⟨c, hc, rfl⟩ := List.mem_map.1 h
      rw [List.mem_range'] at hc
      have hcol : c < info.length := by omega
      rw [add64_eq_add (by omega)]
      refine ⟨rfl, ?_, ?_⟩ <;> dsimp only <;> omega

theorem c10_progress_bar_writes_witness :
    progress_bar_writes { value := -3 / 2, pos := ⟨2, 3⟩, length := 4 } =
        progress_bar_writes { value := 0, pos := ⟨2, 3⟩, length := 4 } ∧
    progress_bar_writes { value := 3 / 2, pos := ⟨2, 3⟩, length := 4 } =
        progress_bar_writes { value := 1, pos := ⟨2, 3⟩, length := 4 } ∧
    ((⟨⟨2, 3⟩, ⟨32, {}⟩⟩ : Position × StyledChar).1.row = 3 ∧
      2 ≤ (⟨⟨2, 3⟩, ⟨32, {}⟩⟩ : Position × StyledChar).1.col ∧
      (⟨⟨2, 3⟩, ⟨32, {}⟩⟩ : Position × StyledChar).1.col < 2 + 4) := by
  refine ⟨?_, ?_, ?_⟩
  · exact c10_progress_bar_writes.1 { value := -3 / 2, pos := ⟨2, 3⟩, length := 4 }
      (by norm_num)
  · exact c10_progress_bar_writes.2.1 { value := 3 / 2, pos := ⟨2, 3⟩, length := 4 }
      (by norm_num)
  · refine c10_progress_bar_writes.2.2
      { value := 1 / 2, pos := ⟨2, 3⟩, length := 4, motion := [] }
      ⟨⟨2, 3⟩, ⟨32, {}⟩⟩ (by norm_num [W64]) ?_
    have hlist : progress_bar_writes
        { value := 1 / 2, pos := ⟨2, 3⟩, length := 4, motion := [] } =
        [(⟨2, 3⟩, ⟨32, {}⟩), (⟨3, 3⟩, ⟨32, {}⟩), (⟨4, 3⟩, ⟨32, {}⟩),
          (⟨5, 3⟩, ⟨32, {}⟩)] := by
      unfold progress_bar_writes
      dsimp only
      norm_num [ratFloorNat]
      rfl
    rw [hlist]
    simp

/-!  ## Parser lemmas: reading a known byte string at the cursor  -/

theorem getD_eq_headD_drop (t : List Nat) (j : Nat) :
    t.getD j TERMINATOR = (t.drop j).headD TERMINATOR := by
  induction t generalizing j with
  | nil => simp
  | cons a t ih =>
    cases j with
    | zero => simp
    | succ j => simpa using ih j

theorem peekAt_headD {t l : List Nat} {j : Nat} (h : t.drop j = l) :
    peekAt t j = l.headD TERMINATOR := by
  show t.getD (j + 0) TERMINATOR = l.headD TERMINATOR
  rw [Nat.add_zero, getD_eq_headD_drop, h]

theorem peekAt_of_drop {t l : List Nat} {j c : Nat} (h : t.drop j = c :: l) :
    peekAt t j = c :=
  peekAt_headD h

theorem drop_tail_of_drop_cons {t l : List Nat} {j c : Nat} (h : t.drop j = c :: l) :
    t.drop (j + 1) = l := by
  have h1 : (t.drop j).drop 1 = t.drop (j + 1) := by
    rw [List.drop_drop]
  rw [← h1, h]
  rfl

theorem drop_append_of_drop {t s l : List Nat} {j : Nat} (h : t.drop j = s ++ l) :
    t.drop (j + s.length) = l := by
  have h1 : (t.drop j).drop s.length = t.drop (j + s.length) := by
    rw [List.drop_drop, Nat.add_comm]
  rw [← h1, h, List.drop_left]

theorem currentAt_of_drop {t l : List Nat} {j c : Nat} (h : t.drop j = c :: l) :
    currentAt t (j + 1) = c := by
  rw [currentAt, if_neg (by omega : ¬ j + 1 = 0)]
  show t.getD (j + 1 - 1) TERMINATOR = c
  rw [show j + 1 - 1 = j by omega, getD_eq_headD_drop, h]
  rfl

theorem matchChar_of_drop {t l : List Nat} {j c : Nat} (h : t.drop j = c :: l) :
    matchChar t j c = (true, j + 1) := by
  rw [matchChar, if_pos (peekAt_of_drop h)]

theorem matchAnyOf_of_drop {t l cs : List Nat} {j c : Nat}
    (h : t.drop j = c :: l) (hc : c ∈ cs) :
    matchAnyOf t j cs = (true, j + 1) := by
  rw [matchAnyOf, if_pos]
  rw [peekAt_of_drop h]
  exact hc

theorem expect_csi_of_drop {t l : List Nat} {j : Nat} (h : t.drop j = 27 :: 91 :: l) :
    expect_csi t j = (true, j + 2) := by
  have h1 : t.drop (j + 1) = 91 :: l := drop_tail_of_drop_cons h
  rw [expect_csi, if_pos]
  exact ⟨peekAt_of_drop h, peekAt_of_drop h1⟩

theorem match_number_take_digits :
    ∀ (cap : Nat) (D l : List Nat), all_digits D → D.length ≤ cap →
      isDigitByte (l.headD TERMINATOR) = false →
      match_number_take (D ++ l) cap = D := by
  intro cap
  induction cap with
  | zero =>
    intro D l _ hlen _
    have hD : D = [] := List.eq_nil_of_length_eq_zero (Nat.le_zero.mp hlen)
    subst hD
    cases l with
    | nil => rfl
    | cons c rest => rfl
  | succ cap ih =>
    intro D l hd hlen hstop
    cases D with
    | nil =>
      cases l with
      | nil => rfl
      | cons c rest =>
        have hc : isDigitByte c = false := by simpa using hstop
        simp [match_number_take, hc]
    | cons d D =>
      have hd0 : isDigitByte d = true := hd d (by simp)
      have hlen1 : D.length ≤ cap := by
        simp only [List.length_cons] at hlen
        omega
      have hrest : all_digits D := fun c hc => hd c (by simp [hc])
      show match_number_take (d :: (D ++ l)) (cap + 1) = d :: D
      simp [match_number_take, hd0, ih D l hrest hlen1 hstop]

theorem digit_foldl_le (D : List Nat) :
    ∀ a : Nat, all_digits D →
      D.foldl (fun a c => 10 * a + (c - 48)) a ≤
        a * 10 ^ D.length + (10 ^ D.length - 1) := by
  induction D with
  | nil =>
    intro a _
    simp
  | cons c D ih =>
    intro a hd
    have hc : c - 48 ≤ 9 := by
      have := hd c (by simp)
      simp [isDigitByte] at this
      omega
    have h1 := ih (10 * a + (c - 48)) (fun x hx => hd x (by simp [hx]))
    simp only [List.foldl_cons]
    refine le_trans h1 ?_
    have e1 : (10 * a + (c - 48)) * 10 ^ D.length ≤
        10 * (a * 10 ^ D.length) + 9 * 10 ^ D.length := by
      calc (10 * a + (c - 48)) * 10 ^ D.length
          ≤ (10 * a + 9) * 10 ^ D.length := Nat.mul_le_mul_right _ (by omega)
        _ = 10 * (a * 10 ^ D.length) + 9 * 10 ^ D.length := by ring
    have e2 : a * 10 ^ (c :: D).length = 10 * (a * 10 ^ D.length) := by
      rw [List.length_cons, pow_succ]
      ring
    have e3 : (10 : Nat) ^ (c :: D).length = 10 * 10 ^ D.length := by
      rw [List.length_cons, pow_succ]
      ring
    rw [e2, e3]
    have hP : 1 ≤ 10 ^ D.length := Nat.one_le_pow _ _ (by omega)
    omega

theorem digit_value_le_99999 {D : List Nat} (hd : all_digits D) (hlen : D.length ≤ 5) :
    digit_value D ≤ 99999 := by
  have h := digit_foldl_le D 0 hd
  have hpow : (10 : Nat) ^ D.length ≤ 10 ^ 5 := Nat.pow_le_pow_right (by omega) hlen
  have hval : digit_value D ≤ 10 ^ D.length - 1 := by simpa [digit_value] using h
  have h5 : (10 : Nat) ^ 5 = 100000 := by norm_num
  omega

theorem match_number_eval {t D l : List Nat} {i maxVal : Nat}
    (ht : t.drop i = D ++ l) (hd : all_digits D) (hne : D ≠ [])
    (hlen : D.length ≤ 5) (hval : digit_value D ≤ maxVal)
    (hstop : isDigitByte (l.headD TERMINATOR) = false) :
    match_number t i maxVal = (some (digit_value D), i + D.length) := by
  have hemp : D.isEmpty = false := by
    cases D with
    | nil => exact absurd rfl hne
    | cons a D => rfl
  unfold match_number
  rw [ht, match_number_take_digits 5 D l hd hlen hstop]
  simp [hemp, Nat.not_lt.mpr hval]

/-!  ## Parser lemmas: parse_mouse on a well-formed SGR report  -/

theorem parse_mouse_sgr {t u dcb dx dy : List Nat} {i final : Nat} {now prev : Int}
    (ht : t.drop i = sgr_mouse_report dcb dx dy final ++ u)
    (hdcb : all_digits dcb) (hdcbne : dcb ≠ []) (hdcblen : dcb.length ≤ 5)
    (hcbv : digit_value dcb ≤ 255)
    (hdx : all_digits dx) (hdxne : dx ≠ []) (hdxlen : dx.length ≤ 5)
    (hdy : all_digits dy) (hdyne : dy ≠ []) (hdylen : dy.length ≤ 5)
    (hfinal : final = 77 ∨ final = 109) :
    parse_mouse t i now prev =
      parse_mouse_decoded (digit_value dcb) (digit_value dx) (digit_value dy) final
        now prev (i + 6 + dcb.length + dx.length + dy.length) := by
  have hfd : isDigitByte final = false := by
    rcases hfinal with h | h <;> subst h <;> rfl
  have h0 : t.drop i = 27 :: 91 :: 60 :: (dcb ++ 59 :: (dx ++ 59 :: (dy ++ final :: u))) := by
    rw [ht]
    simp [sgr_mouse_report]
  have e1 : expect_csi t i = (true, i + 2) := expect_csi_of_drop h0
  have h2 : t.drop (i + 2) = 60 :: (dcb ++ 59 :: (dx ++ 59 :: (dy ++ final :: u))) := by
    rw [show i + 2 = i + 1 + 1 by omega]
    exact drop_tail_of_drop_cons (drop_tail_of_drop_cons h0)
  have e2 : matchChar t (i + 2) 60 = (true, i + 2 + 1) := matchChar_of_drop h2
  have h3 : t.drop (i + 2 + 1) = dcb ++ 59 :: (dx ++ 59 :: (dy ++ final :: u)) :=
    drop_tail_of_drop_cons h2
  have e3 : match_number t (i + 2 + 1) 255 =
      (some (digit_value dcb), i + 2 + 1 + dcb.length) :=
    match_number_eval h3 hdcb hdcbne hdcblen hcbv rfl
  have h4 : t.drop (i + 2 + 1 + dcb.length) = 59 :: (dx ++ 59 :: (dy ++ final :: u)) :=
    drop_append_of_drop h3
  have e4 : matchChar t (i + 2 + 1 + dcb.length) 59 = (true, i + 2 + 1 + dcb.length + 1) :=
    matchChar_of_drop h4
  have h5 : t.drop (i + 2 + 1 + dcb.length + 1) = dx ++ 59 :: (dy ++ final :: u) :=
    drop_tail_of_drop_cons h4
  have hxv : digit_value dx ≤ W64 - 1 := by
    have h9 := digit_value_le_99999 hdx hdxlen
    have hbig : (99999 : Nat) ≤ W64 - 1 := by norm_num [W64]
    omega
  have e5 : match_number t (i + 2 + 1 + dcb.length + 1) (W64 - 1) =
      (some (digit_value dx), i + 2 + 1 + dcb.length + 1 + dx.length) :=
    match_number_eval h5 hdx hdxne hdxlen hxv rfl
  have h6 : t.drop (i + 2 + 1 + dcb.length + 1 + dx.length) = 59 :: (dy ++ final :: u) :=
    drop_append_of_drop h5
  have e6 : matchChar t (i + 2 + 1 + dcb.length + 1 + dx.length) 59 =
      (true, i + 2 + 1 + dcb.length + 1 + dx.length + 1) := matchChar_of_drop h6
  have h7 : t.drop (i + 2 + 1 + dcb.length + 1 + dx.length + 1) = dy ++ final :: u :=
    drop_tail_of_drop_cons h6
  have hyv : digit_value dy ≤ W64 - 1 := by
    have h9 := digit_value_le_99999 hdy hdylen
    have hbig : (99999 : Nat) ≤ W64 - 1 := by norm_num [W64]
    omega
  have e7 : match_number t (i + 2 + 1 + dcb.length + 1 + dx.length + 1) (W64 - 1) =
      (some (digit_value dy), i + 2 + 1 + dcb.length + 1 + dx.length + 1 + dy.length) :=
    match_number_eval h7 hdy hdyne hdylen hyv (by simpa using hfd)
  have h8 : t.drop (i + 2 + 1 + dcb.length + 1 + dx.length + 1 + dy.length) = final :: u :=
    drop_append_of_drop h7
  have e8 : matchAnyOf t (i + 2 + 1 + dcb.length + 1 + dx.length + 1 + dy.length) [77, 109] =
      (true, i + 2 + 1 + dcb.length + 1 + dx.length + 1 + dy.length + 1) :=
    matchAnyOf_of_drop h8 (by rcases hfinal with h | h <;> subst h <;> simp)
  have e9 : currentAt t (i + 2 + 1 + dcb.length + 1 + dx.length + 1 + dy.length + 1) = final :=
    currentAt_of_drop h8
  have hidx : i + 2 + 1 + dcb.length + 1 + dx.length + 1 + dy.length + 1 =
      i + 6 + dcb.length + dx.length + dy.length := by omega
  simp only [parse_mouse, e1, e2, e3, e4, e5, e6, e7, e8, e9, hidx]
  have e9f : currentAt t (i + 6 + dcb.length + dx.length + dy.length) = final := by
    rw [← hidx]
    exact e9
  rw [e9f]

theorem parse_mouse_decoded_press {cb X Y : Nat} {now prev : Int} {j : Nat}
    (hb : (cb &&& 3) ||| ((cb &&& 192) >>> 4) ≤ 2) (hdrag : cb &&& 32 = 0) :
    parse_mouse_decoded cb X Y 77 now prev j =
      (some ⟨MouseEventKind.moved, MouseButton.none, ⟨sub64 X 1, sub64 Y 1⟩,
        sgr_modifiers cb⟩, j, prev) := by
  have hd : decide (cb &&& 32 = 32) = false := by
    rw [hdrag]
    rfl
  have h3 : (cb &&& 3) ||| ((cb &&& 192) >>> 4) = 0 ∨
      (cb &&& 3) ||| ((cb &&& 192) >>> 4) = 1 ∨
      (cb &&& 3) ||| ((cb &&& 192) >>> 4) = 2 := by omega
  rcases h3 with h | h | h <;>
    simp [parse_mouse_decoded, h, mouse_kind_button, hd]

theorem parse_mouse_decoded_release_late {cb X Y : Nat} {now prev : Int} {j : Nat}
    (hb : (cb &&& 3) ||| ((cb &&& 192) >>> 4) ≤ 2) (hdrag : cb &&& 32 = 0)
    (hlate : DOUBLE_CLICK_NS < now - prev) :
    parse_mouse_decoded cb X Y 109 now prev j =
      (some ⟨MouseEventKind.click, click_button_of ((cb &&& 3) ||| ((cb &&& 192) >>> 4)),
        ⟨sub64 X 1, sub64 Y 1⟩, sgr_modifiers cb⟩, j, now) := by
  have hd : decide (cb &&& 32 = 32) = false := by
    rw [hdrag]
    rfl
  have hl : ¬ now - prev ≤ DOUBLE_CLICK_NS := not_le.mpr hlate
  have h3 : (cb &&& 3) ||| ((cb &&& 192) >>> 4) = 0 ∨
      (cb &&& 3) ||| ((cb &&& 192) >>> 4) = 1 ∨
      (cb &&& 3) ||| ((cb &&& 192) >>> 4) = 2 := by omega
  rcases h3 with h | h | h <;>
    simp [parse_mouse_decoded, h, mouse_kind_button, hd, hl, click_button_of]

theorem parse_mouse_decoded_release_fast {cb X Y : Nat} {now prev : Int} {j : Nat}
    (hb : (cb &&& 3) ||| ((cb &&& 192) >>> 4) ≤ 2) (hdrag : cb &&& 32 = 0)
    (hfast : now - prev ≤ DOUBLE_CLICK_NS) :
    parse_mouse_decoded cb X Y 109 now prev j =
      (some ⟨MouseEventKind.doubleClick,
        click_button_of ((cb &&& 3) ||| ((cb &&& 192) >>> 4)),
        ⟨sub64 X 1, sub64 Y 1⟩, sgr_modifiers cb⟩, j, 0) := by
  have hd : decide (cb &&& 32 = 32) = false := by
    rw [hdrag]
    rfl
  have h3 : (cb &&& 3) ||| ((cb &&& 192) >>> 4) = 0 ∨
      (cb &&& 3) ||| ((cb &&& 192) >>> 4) = 1 ∨
      (cb &&& 3) ||| ((cb &&& 192) >>> 4) = 2 := by omega
  rcases h3 with h | h | h <;>
    simp [parse_mouse_decoded, h, mouse_kind_button, hd, hfast, click_button_of]

theorem parse_of_mouse {t : List Nat} {i i2 : Nat} {now prev p2 : Int} {ev : MouseEvent}
    (hne : ¬ t = [27])
    (hm : parse_mouse t i now prev = (some ev, i2, p2)) :
    parse t i now prev = (some (Event.mouse ev), i2, p2) := by
  unfold parse
  rw [if_neg hne, hm]

theorem parse_events_fuel_done {t : List Nat} {times : Nat → Int} {fuel k i : Nat}
    {prev : Int} (hi : t.length ≤ i) :
    parse_events_fuel t times fuel k i prev = some [] := by
  cases fuel with
  | zero => simp [parse_events_fuel, hi]
  | succ fuel => simp [parse_events_fuel, hi]

theorem parse_events_fuel_cons {t : List Nat} {times : Nat → Int} {fuel k i i2 : Nat}
    {prev p2 : Int} {ev : Event}
    (hi : i < t.length)
    (hp : parse t i (times k) prev = (some ev, i2, p2)) :
    parse_events_fuel t times (fuel + 1) k i prev =
      Option.map (fun evs => ev :: evs) (parse_events_fuel t times fuel (k + 1) i2 p2) := by
  have hni : ¬ t.length ≤ i := not_le.mpr hi
  cases hrec : parse_events_fuel t times fuel (k + 1) i2 p2 with
  | none => simp [parse_events_fuel, hni, hp, hrec]
  | some evs => simp [parse_events_fuel, hni, hp, hrec]

/-!  ## C1: the parse loop on unrecognized bytes  -/

/-- C1: REFUTED (code bug). On the single unrecognized byte 0x01 every grammar
fails with the cursor still at 0 (parse returns (none, 0, prev)), parse_events
re-enters the loop at the same index with the same state, so no amount of loop
iterations (fuel) ever finishes: the offending byte is never dropped, the index
never advances, and the while (index < size) loop of Parser::parse_events runs
forever — refuting the claim that the loop always terminates by dropping
malformed bytes. -/
theorem c1_parse_events_wedged :
    (∀ now prev : Int, parse [1] 0 now prev = (none, 0, prev)) ∧
    (∀ (fuel k : Nat) (times : Nat → Int) (prev : Int),
      parse_events_fuel [1] times fuel k 0 prev = none) ∧
    (∀ times : Nat → Int, parse_events [1] times = none) := by
  have hparse : ∀ now prev : Int, parse [1] 0 now prev = (none, 0, prev) := by
    intro now prev
    rfl
  have hfuel : ∀ (fuel k : Nat) (times : Nat → Int) (prev : Int),
      parse_events_fuel [1] times fuel k 0 prev = none := by
    intro fuel
    induction fuel with
    | zero =>
      intro k times prev
      rfl
    | succ fuel ih =>
      intro k times prev
      simp [parse_events_fuel, hparse, ih]
  exact ⟨hparse, hfuel, fun times => hfuel _ _ _ _⟩

/-!  ## C3: SGR press and release reports  -/

/-- C3: counterexample. The release report CSI < 0 ; 5 ; 5 m (trailing 'm',
button number 0, drag bit clear) decodes to a click event carrying the left
button, not to a button-less moved event; it is the press report CSI < 0 ; 5 ;
5 M (trailing 'M') that decodes to the button-less moved event. The claim has
the two trailing letters swapped. -/
theorem c3_counterexample :
    (parse_mouse [27, 91, 60, 48, 59, 53, 59, 53, 109] 0 1000000000 0).1 =
      some ⟨MouseEventKind.click, MouseButton.left, ⟨4, 4⟩, 0⟩ ∧
    (parse_mouse [27, 91, 60, 48, 59, 53, 59, 53, 77] 0 1000000000 0).1 =
      some ⟨MouseEventKind.moved, MouseButton.none, ⟨4, 4⟩, 0⟩ :=
  ⟨rfl, rfl⟩

/-- C3 amended: for every well-formed SGR mouse report with a button number in
0-2 and the drag bit clear, a trailing 'M' (button press) report decodes to a
button-less moved event, while the corresponding trailing-'m' (release) report
carries the click classification with the left/middle/right button of its
button number (a click past the double-click window shown here); and the
mapped button is never MouseButton.none. -/
theorem c3_sgr_press_release_amended (t u dcb dx dy : List Nat) (i : Nat)
    (now prev : Int) (final : Nat)
    (ht : t.drop i = sgr_mouse_report dcb dx dy final ++ u)
    (hdcb : all_digits dcb) (hdcbne : dcb ≠ []) (hdcblen : dcb.length ≤ 5)
    (hcbv : digit_value dcb ≤ 255)
    (hdx : all_digits dx) (hdxne : dx ≠ []) (hdxlen : dx.length ≤ 5)
    (hdy : all_digits dy) (hdyne : dy ≠ []) (hdylen : dy.length ≤ 5)
    (hbtn : (digit_value dcb &&& 3) ||| ((digit_value dcb &&& 192) >>> 4) ≤ 2)
    (hdrag : digit_value dcb &&& 32 = 0) :
    (final = 77 →
      parse_mouse t i now prev =
        (some ⟨MouseEventKind.moved, MouseButton.none,
           ⟨sub64 (digit_value dx) 1, sub64 (digit_value dy) 1⟩,
           sgr_modifiers (digit_value dcb)⟩,
         i + 6 + dcb.length + dx.length + dy.length, prev)) ∧
    (final = 109 → DOUBLE_CLICK_NS < now - prev →
      parse_mouse t i now prev =
        (some ⟨MouseEventKind.click,
           click_button_of ((digit_value dcb &&& 3) ||| ((digit_value dcb &&& 192) >>> 4)),
           ⟨sub64 (digit_value dx) 1, sub64 (digit_value dy) 1⟩,
           sgr_modifiers (digit_value dcb)⟩,
         i + 6 + dcb.length + dx.length + dy.length, now)) ∧
    (∀ bn : Nat, click_button_of bn ≠ MouseButton.none) := by
  refine ⟨?_, ?_, ?_⟩
  · intro h77
    subst h77
    rw [parse_mouse_sgr ht hdcb hdcbne hdcblen hcbv hdx hdxne hdxlen hdy hdyne hdylen
        (Or.inl rfl)]
    exact parse_mouse_decoded_press hbtn hdrag
  · intro h109 hlate
    subst h109
    rw [parse_mouse_sgr ht hdcb hdcbne hdcblen hcbv hdx hdxne hdxlen hdy hdyne hdylen
        (Or.inr rfl)]
    exact parse_mouse_decoded_release_late hbtn hdrag hlate
  · intro bn
    rw [click_button_of]
    split_ifs <;> simp

/-- Witness: the amended C3 theorem applied to the concrete press report
CSI < 0 ; 5 ; 5 M and release report CSI < 0 ; 5 ; 5 m at cursor 0, with the
release arriving one second after the epoch. -/
theorem c3_sgr_press_release_amended_witness :
    parse_mouse [27, 91, 60, 48, 59, 53, 59, 53, 77] 0 1000000000 0 =
      (some ⟨MouseEventKind.moved, MouseButton.none, ⟨4, 4⟩, 0⟩, 9, 0) ∧
    parse_mouse [27, 91, 60, 48, 59, 53, 59, 53, 109] 0 1000000000 0 =
      (some ⟨MouseEventKind.click, MouseButton.left, ⟨4, 4⟩, 0⟩, 9, 1000000000) := by
  constructor
  · exact (c3_sgr_press_release_amended [27, 91, 60, 48, 59, 53, 59, 53, 77] []
      [48] [53] [53] 0 1000000000 0 77 rfl (by decide) (by decide) (by decide)
      (by decide) (by decide) (by decide) (by decide) (by decide) (by decide)
      (by decide) (by decide) (by decide)).1 rfl
  · exact (c3_sgr_press_release_amended [27, 91, 60, 48, 59, 53, 59, 53, 109] []
      [48] [53] [53] 0 1000000000 0 109 rfl (by decide) (by decide) (by decide)
      (by decide) (by decide) (by decide) (by decide) (by decide) (by decide)
      (by decide) (by decide) (by decide)).2.1 rfl (by decide)

/-!  ## C4: the double-click window  -/

/-- C4: counterexample. Two identical left-button release reports whose parse
calls read clocks exactly 500 ms apart (1000000000 ns and 1500000000 ns)
decode to (click, double-click): the source demotes to double-click when
now - prev <= 500ms, boundary included, so two clicks exactly 500 ms apart are
(click, double-click), refuting the claim that clicks 500 ms or more apart
decode to (click, click). -/
theorem c4_counterexample :
    parse_events (sgr_click_report ++ sgr_click_report)
        (fun k => if k = 0 then 1000000000 else 1500000000) =
      some [Event.mouse ⟨MouseEventKind.click, MouseButton.left, ⟨4, 4⟩, 0⟩,
            Event.mouse ⟨MouseEventKind.doubleClick, MouseButton.left, ⟨4, 4⟩, 0⟩] :=
  rfl

/-- C4 amended: for two identical left-button release reports in one batch,
with the first click later than the 500 ms window after the epoch, a second
click at most 500 ms (boundary included) after the first decodes to (click,
double-click), and a second click strictly more than 500 ms after the first
decodes to (click, click); the double-click resets the window's reference time
to the epoch, so three monotone rapid clicks (each within 500 ms of the
previous) decode to (click, double-click, click). -/
theorem c4_double_click_amended (times : Nat → Int)
    (h0 : DOUBLE_CLICK_NS < times 0) :
    (times 1 - times 0 ≤ DOUBLE_CLICK_NS →
      parse_events (sgr_click_report ++ sgr_click_report) times =
        some [Event.mouse ⟨MouseEventKind.click, MouseButton.left, ⟨4, 4⟩, 0⟩,
              Event.mouse ⟨MouseEventKind.doubleClick, MouseButton.left, ⟨4, 4⟩, 0⟩]) ∧
    (DOUBLE_CLICK_NS < times 1 - times 0 →
      parse_events (sgr_click_report ++ sgr_click_report) times =
        some [Event.mouse ⟨MouseEventKind.click, MouseButton.left, ⟨4, 4⟩, 0⟩,
              Event.mouse ⟨MouseEventKind.click, MouseButton.left, ⟨4, 4⟩, 0⟩]) ∧
    (times 0 ≤ times 1 → times 1 ≤ times 2 →
     times 1 - times 0 ≤ DOUBLE_CLICK_NS → times 2 - times 1 ≤ DOUBLE_CLICK_NS →
      parse_events (sgr_click_report ++ sgr_click_report ++ sgr_click_report) times =
        some [Event.mouse ⟨MouseEventKind.click, MouseButton.left, ⟨4, 4⟩, 0⟩,
              Event.mouse ⟨MouseEventKind.doubleClick, MouseButton.left, ⟨4, 4⟩, 0⟩,
              Event.mouse ⟨MouseEventKind.click, MouseButton.left, ⟨4, 4⟩, 0⟩]) := by
  have hlate0 : DOUBLE_CLICK_NS < times 0 - 0 := by omega
  refine ⟨?_, ?_, ?_⟩
  · intro hfast
    have hp0 : parse (sgr_click_report ++ sgr_click_report) 0 (times 0) 0 =
        (some (Event.mouse ⟨MouseEventKind.click, MouseButton.left, ⟨4, 4⟩, 0⟩),
          9, times 0) := by
      refine parse_of_mouse (by decide) ?_
      have hm : parse_mouse (sgr_click_report ++ sgr_click_report) 0 (times 0) 0 =
          parse_mouse_decoded 0 5 5 109 (times 0) 0 9 := rfl
      rw [hm]
      exact parse_mouse_decoded_release_late (by decide) (by decide) hlate0
    have hp9 : parse (sgr_click_report ++ sgr_click_report) 9 (times 1) (times 0) =
        (some (Event.mouse ⟨MouseEventKind.doubleClick, MouseButton.left, ⟨4, 4⟩, 0⟩),
          18, 0) := by
      refine parse_of_mouse (by decide) ?_
      have hm : parse_mouse (sgr_click_report ++ sgr_click_report) 9 (times 1) (times 0) =
          parse_mouse_decoded 0 5 5 109 (times 1) (times 0) 18 := rfl
      rw [hm]
      exact parse_mouse_decoded_release_fast (by decide) (by decide) hfast
    unfold parse_events
    rw [parse_events_fuel_cons (by decide) hp0,
        show (sgr_click_report ++ sgr_click_report).length = 17 + 1 from rfl,
        parse_events_fuel_cons (by decide) hp9,
        parse_events_fuel_done (by decide)]
    rfl
  · intro hslow
    have hp0 : parse (sgr_click_report ++ sgr_click_report) 0 (times 0) 0 =
        (some (Event.mouse ⟨MouseEventKind.click, MouseButton.left, ⟨4, 4⟩, 0⟩),
          9, times 0) := by
      refine parse_of_mouse (by decide) ?_
      have hm : parse_mouse (sgr_click_report ++ sgr_click_report) 0 (times 0) 0 =
          parse_mouse_decoded 0 5 5 109 (times 0) 0 9 := rfl
      rw [hm]
      exact parse_mouse_decoded_release_late (by decide) (by decide) hlate0
    have hp9 : parse (sgr_click_report ++ sgr_click_report) 9 (times 1) (times 0) =
        (some (Event.mouse ⟨MouseEventKind.click, MouseButton.left, ⟨4, 4⟩, 0⟩),
          18, times 1) := by
      refine parse_of_mouse (by decide) ?_
      have hm : parse_mouse (sgr_click_report ++ sgr_click_report) 9 (times 1) (times 0) =
          parse_mouse_decoded 0 5 5 109 (times 1) (times 0) 18 := rfl
      rw [hm]
      exact parse_mouse_decoded_release_late (by decide) (by decide) hslow
    unfold parse_events
    rw [parse_events_fuel_cons (by decide) hp0,
        show (sgr_click_report ++ sgr_click_report).length = 17 + 1 from rfl,
        parse_events_fuel_cons (by decide) hp9,
        parse_events_fuel_done (by decide)]
    rfl
  · intro hm01 hm12 hfast1 hfast2
    have hlate2 : DOUBLE_CLICK_NS < times 2 - 0 := by omega
    have hp0 : parse (sgr_click_report ++ sgr_click_report ++ sgr_click_report) 0
        (times 0) 0 =
        (some (Event.mouse ⟨MouseEventKind.click, MouseButton.left, ⟨4, 4⟩, 0⟩),
          9, times 0) := by
      refine parse_of_mouse (by decide) ?_
      have hm : parse_mouse (sgr_click_report ++ sgr_click_report ++ sgr_click_report) 0
          (times 0) 0 = parse_mouse_decoded 0 5 5 109 (times 0) 0 9 := rfl
      rw [hm]
      exact parse_mouse_decoded_release_late (by decide) (by decide) hlate0
    have hp9 : parse (sgr_click_report ++ sgr_click_report ++ sgr_click_report) 9
        (times 1) (times 0) =
        (some (Event.mouse ⟨MouseEventKind.doubleClick, MouseButton.left, ⟨4, 4⟩, 0⟩),
          18, 0) := by
      refine parse_of_mouse (by decide) ?_
      have hm : parse_mouse (sgr_click_report ++ sgr_click_report ++ sgr_click_report) 9
          (times 1) (times 0) = parse_mouse_decoded 0 5 5 109 (times 1) (times 0) 18 := rfl
      rw [hm]
      exact parse_mouse_decoded_release_fast (by decide) (by decide) hfast1
    have hp18 : parse (sgr_click_report ++ sgr_click_report ++ sgr_click_report) 18
        (times 2) 0 =
        (some (Event.mouse ⟨MouseEventKind.click, MouseButton.left, ⟨4, 4⟩, 0⟩),
          27, times 2) := by
      refine parse_of_mouse (by decide) ?_
      have hm : parse_mouse (sgr_click_report ++ sgr_click_report ++ sgr_click_report) 18
          (times 2) 0 = parse_mouse_decoded 0 5 5 109 (times 2) 0 27 := rfl
      rw [hm]
      exact parse_mouse_decoded_release_late (by decide) (by decide) hlate2
    unfold parse_events
    rw [parse_events_fuel_cons (by decide) hp0,
        show (sgr_click_report ++ sgr_click_report ++ sgr_click_report).length = 26 + 1
          from rfl,
        parse_events_fuel_cons (by decide) hp9,
        show (26 : Nat) = 25 + 1 from rfl,
        parse_events_fuel_cons (by decide) hp18,
        parse_events_fuel_done (by decide)]
    rfl

/-- Witness: the amended C4 theorem applied to concrete clock readings — clicks
at 1.0 s and 1.4 s give (click, double-click); clicks at 1.0 s and 1.7 s give
(click, click); clicks at 1.0 s, 1.4 s and 1.8 s give (click, double-click,
click). -/
theorem c4_double_click_amended_witness :
    parse_events (sgr_click_report ++ sgr_click_report)
        (fun k => if k = 0 then 1000000000 else if k = 1 then 1400000000 else 1800000000) =
      some [Event.mouse ⟨MouseEventKind.click, MouseButton.left, ⟨4, 4⟩, 0⟩,
            Event.mouse ⟨MouseEventKind.doubleClick, MouseButton.left, ⟨4, 4⟩, 0⟩] ∧
    parse_events (sgr_click_report ++ sgr_click_report)
        (fun k => if k = 0 then 1000000000 else 1700000000) =
      some [Event.mouse ⟨MouseEventKind.click, MouseButton.left, ⟨4, 4⟩, 0⟩,
            Event.mouse ⟨MouseEventKind.click, MouseButton.left, ⟨4, 4⟩, 0⟩] ∧
    parse_events (sgr_click_report ++ sgr_click_report ++ sgr_click_report)
        (fun k => if k = 0 then 1000000000 else if k = 1 then 1400000000 else 1800000000) =
      some [Event.mouse ⟨MouseEventKind.click, MouseButton.left, ⟨4, 4⟩, 0⟩,
            Event.mouse ⟨MouseEventKind.doubleClick, MouseButton.left, ⟨4, 4⟩, 0⟩,
            Event.mouse ⟨MouseEventKind.click, MouseButton.left, ⟨4, 4⟩, 0⟩] := by
  refine ⟨?_, ?_, ?_⟩
  · exact (c4_double_click_amended _ (by decide)).1 (by decide)
  · exact (c4_double_click_amended _ (by decide)).2.1 (by decide)
  · exact (c4_double_click_amended _ (by decide)).2.2 (by decide) (by decide)
      (by decide) (by decide)

end Nite
